import Mathlib

/-
Verification of the Panacea spreadsheet-validation core (dqchecks.panacea).

The Python source is shallowly embedded: worksheets become a title, nominal
row/column extents and a total cell function; Python dicts that preserve
insertion order become association lists; functions that raise become
Except-valued functions.  `uuid.uuid4()` event identifiers are nondeterministic
I/O and are not modelled; no claim below depends on them.
-/

set_option maxHeartbeats 1000000

namespace Panacea

/-- A Python cell value as far as the comparison core inspects it: a string or
an integer scalar.  `none` at the `Option` level models Python `None`. -/
inductive PyVal where
  | str (s : String)
  | int (n : Int)
deriving DecidableEq, Repr

/-- One spreadsheet cell: its value and whether openpyxl tagged it with
`data_type == 'e'` (an evaluated formula error). -/
structure Cell where
  value : Option PyVal := none
  dataTypeE : Bool := false
deriving DecidableEq, Repr

/-- An openpyxl worksheet: a title, nominal extents (`max_row`, `max_column`)
and 1-based cell access `sheet.cell(row=r, column=c)`. -/
structure Worksheet where
  title : String
  maxRow : Nat
  maxColumn : Nat
  cells : Nat → Nat → Cell

/-- An openpyxl workbook: an ordered collection of worksheets. -/
structure Workbook where
  sheets : List Worksheet

/-- `wb.sheetnames`. -/
def Workbook.sheetnames (wb : Workbook) : List String :=
  wb.sheets.map Worksheet.title

/-- `wb[name]`: fetch a sheet by title (total, with a default for absent
names; orchestrators only use it on names known to be present). -/
def Workbook.getSheet (wb : Workbook) (name : String) : Worksheet :=
  ((wb.sheets.filter (fun s => s.title == name)).head?).getD
    { title := "", maxRow := 1, maxColumn := 1, cells := fun _ _ => {} }

/-- How Python `str()` renders the cell values the model carries (used inside
f-string messages). -/
def pyStr : Option PyVal → String
  | none => "None"
  | some (.str s) => s
  | some (.int n) => toString n

/-- A single-quote character as a string (used inside message literals). -/
def sq : String := String.mk [Char.ofNat 39]

/-! ### Decimal rendering of row numbers (Python `str(row)`) -/

/-- The decimal digit character for `d < 10`. -/
def digitChar (d : Nat) : Char := Char.ofNat (48 + d)

/-- Decimal rendering of a natural number, as Python `str` produces it. -/
def natRepr (n : Nat) : String :=
  if n < 10 then String.mk [digitChar n]
  else natRepr (n / 10) ++ String.mk [digitChar (n % 10)]
termination_by n
decreasing_by
  exact Nat.div_lt_self (by omega) (by omega)

/-- Decimal decoding of a character list, an inverse used to prove `natRepr`
injective. -/
def decDecode (acc : Nat) : List Char → Nat
  | [] => acc
  | c :: cs => decDecode (acc * 10 + (c.toNat - 48)) cs

set_option maxHeartbeats 1000000 in
theorem digitChar_toNat {d : Nat} (h : d < 10) : (digitChar d).toNat = 48 + d := by
  interval_cases d <;> rfl

theorem decDecode_nil (acc : Nat) : decDecode acc [] = acc := rfl

theorem decDecode_cons (acc : Nat) (c : Char) (cs : List Char) :
    decDecode acc (c :: cs) = decDecode (acc * 10 + (c.toNat - 48)) cs := rfl

theorem decDecode_append (acc : Nat) (l1 l2 : List Char) :
    decDecode acc (l1 ++ l2) = decDecode (decDecode acc l1) l2 := by
  induction l1 generalizing acc with
  | nil => rfl
  | cons c cs ih => exact ih (acc * 10 + (c.toNat - 48))

theorem natRepr_spec (n : Nat) :
    ∀ acc, decDecode acc (natRepr n).data = acc * 10 ^ (natRepr n).data.length + n := by
  induction n using Nat.strong_induction_on with
  | _ n ih =>
    intro acc
    rw [natRepr]
    by_cases h : n < 10
    · simp only [if_pos h]
      show decDecode acc [digitChar n] = _
      rw [decDecode_cons, decDecode_nil, digitChar_toNat h]
      simp only [List.length_cons, List.length_nil, Nat.zero_add, pow_one]
      omega
    · simp only [if_neg h]
      have hd : n / 10 < n := Nat.div_lt_self (by omega) (by omega)
      rw [String.data_append, decDecode_append, ih (n / 10) hd acc]
      show decDecode _ [digitChar (n % 10)] = _
      rw [decDecode_cons, decDecode_nil, digitChar_toNat (Nat.mod_lt n (by omega))]
      simp only [List.length_append, List.length_cons, List.length_nil,
        Nat.zero_add, pow_succ]
      rw [Nat.add_mul, Nat.mul_assoc]
      omega

theorem natRepr_injective : Function.Injective natRepr := by
  intro a b h
  have ha := natRepr_spec a 0
  have hb := natRepr_spec b 0
  rw [h] at ha
  omega

theorem natRepr_digits (n : Nat) :
    ∀ c ∈ (natRepr n).data, 48 ≤ c.toNat ∧ c.toNat ≤ 57 := by
  induction n using Nat.strong_induction_on with
  | _ n ih =>
    rw [natRepr]
    by_cases h : n < 10
    · simp only [if_pos h]
      intro c hc
      simp [String.mk] at hc
      subst hc
      rw [digitChar_toNat h]
      omega
    · simp only [if_neg h]
      intro c hc
      rw [String.data_append] at hc
      rcases List.mem_append.mp hc with h1 | h2
      · exact ih (n / 10) (Nat.div_lt_self (by omega) (by omega)) c h1
      · simp [String.mk] at h2
        subst h2
        rw [digitChar_toNat (Nat.mod_lt n (by omega))]
        omega

theorem natRepr_ne_nil (n : Nat) : (natRepr n).data ≠ [] := by
  rw [natRepr]
  by_cases h : n < 10
  · simp [if_pos h, String.mk]
  · simp only [if_neg h]
    rw [String.data_append]
    simp [String.mk]

/-! ### Excel column letters (`openpyxl.utils.get_column_letter`) -/

/-- The uppercase letter character for `r < 26`. -/
def letterChar (r : Nat) : Char := Char.ofNat (65 + r)

/-- Bijective base-26 column lettering: 1 ↦ "A", 26 ↦ "Z", 27 ↦ "AA", … -/
def get_column_letter (n : Nat) : String :=
  if n = 0 then ""
  else get_column_letter ((n - 1) / 26) ++ String.mk [letterChar ((n - 1) % 26)]
termination_by n
decreasing_by
  have : (n - 1) / 26 ≤ n - 1 := Nat.div_le_self _ _
  omega

/-- Base-26 decoding, an inverse used to prove `get_column_letter` injective. -/
def letterDecode (acc : Nat) : List Char → Nat
  | [] => acc
  | c :: cs => letterDecode (acc * 26 + (c.toNat - 64)) cs

set_option maxHeartbeats 1000000 in
theorem letterChar_toNat {r : Nat} (h : r < 26) : (letterChar r).toNat = 65 + r := by
  interval_cases r <;> rfl

theorem letterDecode_nil (acc : Nat) : letterDecode acc [] = acc := rfl

theorem letterDecode_cons (acc : Nat) (c : Char) (cs : List Char) :
    letterDecode acc (c :: cs) = letterDecode (acc * 26 + (c.toNat - 64)) cs := rfl

theorem letterDecode_append (acc : Nat) (l1 l2 : List Char) :
    letterDecode acc (l1 ++ l2) = letterDecode (letterDecode acc l1) l2 := by
  induction l1 generalizing acc with
  | nil => rfl
  | cons c cs ih => exact ih (acc * 26 + (c.toNat - 64))

theorem get_column_letter_spec (n : Nat) :
    ∀ acc, letterDecode acc (get_column_letter n).data
      = acc * 26 ^ (get_column_letter n).data.length + n := by
  induction n using Nat.strong_induction_on with
  | _ n ih =>
    intro acc
    rw [get_column_letter]
    by_cases h : n = 0
    · rw [if_pos h]
      show letterDecode acc [] = _
      rw [letterDecode_nil]
      simp [h]
    · rw [if_neg h]
      have hd : (n - 1) / 26 < n := by
        have : (n - 1) / 26 ≤ n - 1 := Nat.div_le_self _ _
        omega
      rw [String.data_append, letterDecode_append, ih ((n - 1) / 26) hd acc]
      show letterDecode _ [letterChar ((n - 1) % 26)] = _
      have hm : (n - 1) % 26 < 26 := Nat.mod_lt _ (by omega)
      rw [letterDecode_cons, letterDecode_nil, letterChar_toNat hm]
      simp only [List.length_append, List.length_cons, List.length_nil,
        Nat.zero_add, pow_succ]
      rw [Nat.add_mul, Nat.mul_assoc]
      omega

theorem get_column_letter_injective : Function.Injective get_column_letter := by
  intro a b h
  have ha := get_column_letter_spec a 0
  have hb := get_column_letter_spec b 0
  rw [h] at ha
  omega

theorem get_column_letter_letters (n : Nat) :
    ∀ c ∈ (get_column_letter n).data, 65 ≤ c.toNat ∧ c.toNat ≤ 90 := by
  induction n using Nat.strong_induction_on with
  | _ n ih =>
    rw [get_column_letter]
    by_cases h : n = 0
    · simp [if_pos h]
    · simp only [if_neg h]
      intro c hc
      rw [String.data_append] at hc
      rcases List.mem_append.mp hc with h1 | h2
      · have hd : (n - 1) / 26 < n := by
          have : (n - 1) / 26 ≤ n - 1 := Nat.div_le_self _ _
          omega
        exact ih ((n - 1) / 26) hd c h1
      · simp [String.mk] at h2
        subst h2
        rw [letterChar_toNat (Nat.mod_lt _ (by omega))]
        omega

/-! ### Cell references (`get_column_letter(col) + str(row)`) -/

/-- The cell reference the code writes for a position: column letters followed
by the decimal row number, e.g. `B3`. -/
def cellName (col row : Nat) : String := get_column_letter col ++ natRepr row

theorem alpha_digit_split :
    ∀ (l1 : List Char) (d1 l2 d2 : List Char),
      (∀ c ∈ l1, 65 ≤ c.toNat ∧ c.toNat ≤ 90) →
      (∀ c ∈ l2, 65 ≤ c.toNat ∧ c.toNat ≤ 90) →
      (∀ c ∈ d1, 48 ≤ c.toNat ∧ c.toNat ≤ 57) →
      (∀ c ∈ d2, 48 ≤ c.toNat ∧ c.toNat ≤ 57) →
      l1 ++ d1 = l2 ++ d2 → l1 = l2 ∧ d1 = d2 := by
  intro l1
  induction l1 with
  | nil =>
    intro d1 l2 d2 _ hl2 hd1 _ heq
    cases l2 with
    | nil => exact ⟨rfl, by simpa using heq⟩
    | cons b l2t =>
      exfalso
      simp only [List.nil_append] at heq
      have hb : b ∈ d1 := by rw [heq]; exact List.mem_cons_self _ _
      have h1 := hd1 b hb
      have h2 := hl2 b (List.mem_cons_self _ _)
      omega
  | cons a l1t ih =>
    intro d1 l2 d2 hl1 hl2 hd1 hd2 heq
    cases l2 with
    | nil =>
      exfalso
      simp only [List.nil_append] at heq
      have ha : a ∈ d2 := by rw [← heq]; exact List.mem_cons_self _ _
      have h1 := hd2 a ha
      have h2 := hl1 a (List.mem_cons_self _ _)
      omega
    | cons b l2t =>
      simp only [List.cons_append, List.cons.injEq] at heq
      obtain ⟨hab, htail⟩ := heq
      have := ih d1 l2t d2 (fun c hc => hl1 c (List.mem_cons_of_mem _ hc))
        (fun c hc => hl2 c (List.mem_cons_of_mem _ hc)) hd1 hd2 htail
      exact ⟨by rw [hab, this.1], this.2⟩

theorem cellName_injective {c1 r1 c2 r2 : Nat} (h : cellName c1 r1 = cellName c2 r2) :
    c1 = c2 ∧ r1 = r2 := by
  unfold cellName at h
  have hdata : (get_column_letter c1).data ++ (natRepr r1).data
      = (get_column_letter c2).data ++ (natRepr r2).data := by
    have := congrArg String.data h
    rwa [String.data_append, String.data_append] at this
  have hsplit := alpha_digit_split (get_column_letter c1).data (natRepr r1).data
    (get_column_letter c2).data (natRepr r2).data
    (get_column_letter_letters c1) (get_column_letter_letters c2)
    (natRepr_digits r1) (natRepr_digits r2) hdata
  constructor
  · exact get_column_letter_injective (by
      apply String.ext
      exact hsplit.1)
  · exact natRepr_injective (by
      apply String.ext
      exact hsplit.2)

/-! ### Ordered dictionaries (Python `dict` with `setdefault`/`append`) -/

/-- Keep the first occurrence of every element, preserving order (the key
order of a Python dict built by insertion). -/
def firstDedup {α : Type} [DecidableEq α] : List α → List α
  | [] => []
  | a :: as => a :: firstDedup (as.filter (fun x => !decide (x = a)))
termination_by l => l.length
decreasing_by
  exact Nat.lt_succ_of_le (List.length_filter_le _ _)

/-- Strong induction on the length of a list. -/
theorem list_length_induction {α : Type} (motive : List α → Prop)
    (step : ∀ l : List α, (∀ l2 : List α, l2.length < l.length → motive l2) → motive l) :
    ∀ l, motive l := by
  have H : ∀ (n : Nat) (l : List α), l.length ≤ n → motive l := by
    intro n
    induction n with
    | zero =>
      intro l hl
      exact step l (fun l2 h2 => absurd (by omega : l2.length < 0) (by omega))
    | succ n ih =>
      intro l hl
      exact step l (fun l2 h2 => ih l2 (by omega))
  exact fun l => H l.length l le_rfl

theorem firstDedup_nil {α : Type} [DecidableEq α] : firstDedup ([] : List α) = [] := by
  rw [firstDedup]

theorem firstDedup_cons {α : Type} [DecidableEq α] (a : α) (as : List α) :
    firstDedup (a :: as) = a :: firstDedup (as.filter (fun x => !decide (x = a))) := by
  rw [firstDedup]

theorem mem_firstDedup {α : Type} [DecidableEq α] (l : List α) (a : α) :
    a ∈ firstDedup l ↔ a ∈ l := by
  induction l using list_length_induction with
  | step l ih =>
    cases l with
    | nil => rw [firstDedup_nil]
    | cons b bs =>
      rw [firstDedup_cons]
      have hlen : (bs.filter (fun x => !decide (x = b))).length < (b :: bs).length :=
        Nat.lt_succ_of_le (List.length_filter_le _ _)
      by_cases hab : a = b
      · subst hab
        simp
      · simp only [List.mem_cons, hab, false_or]
        rw [ih _ hlen]
        simp [List.mem_filter, hab]

theorem nodup_firstDedup {α : Type} [DecidableEq α] (l : List α) :
    (firstDedup l).Nodup := by
  induction l using list_length_induction with
  | step l ih =>
    cases l with
    | nil =>
      rw [firstDedup_nil]
      exact List.nodup_nil
    | cons b bs =>
      rw [firstDedup_cons]
      have hlen : (bs.filter (fun x => !decide (x = b))).length < (b :: bs).length :=
        Nat.lt_succ_of_le (List.length_filter_le _ _)
      refine List.nodup_cons.mpr ⟨?_, ih _ hlen⟩
      rw [mem_firstDedup]
      simp [List.mem_filter]

theorem firstDedup_eq_self {α : Type} [DecidableEq α] (l : List α) (h : l.Nodup) :
    firstDedup l = l := by
  induction l with
  | nil => exact firstDedup_nil
  | cons b bs ih =>
    rw [firstDedup_cons]
    have hb : b ∉ bs := (List.nodup_cons.mp h).1
    have heq : bs.filter (fun x => !decide (x = b)) = bs := by
      apply List.filter_eq_self.mpr
      intro x hx
      simp only [Bool.not_eq_true', decide_eq_false_iff_not]
      intro hxb
      exact hb (hxb ▸ hx)
    rw [heq, ih (List.nodup_cons.mp h).2]

theorem firstDedup_append_singleton {α : Type} [DecidableEq α] (l : List α) (x : α) :
    firstDedup (l ++ [x]) = if x ∈ l then firstDedup l else firstDedup l ++ [x] := by
  induction l using list_length_induction with
  | step l ih =>
    cases l with
    | nil =>
      rw [List.nil_append, firstDedup_cons]
      simp [firstDedup_nil]
    | cons b bs =>
      have hlen : (bs.filter (fun y => !decide (y = b))).length < (b :: bs).length :=
        Nat.lt_succ_of_le (List.length_filter_le _ _)
      rw [List.cons_append, firstDedup_cons, firstDedup_cons]
      rw [List.filter_append]
      by_cases hxb : x = b
      · subst hxb
        simp
      · have hsing : [x].filter (fun y => !decide (y = b)) = [x] := by simp [hxb]
        rw [hsing, ih _ hlen]
        by_cases hmem : x ∈ bs
        · have h1 : x ∈ List.filter (fun y => !decide (y = b)) bs := by
            rw [List.mem_filter]
            simp [hmem, hxb]
          rw [if_pos h1, if_pos (List.mem_cons_of_mem _ hmem)]
        · have h1 : x ∉ List.filter (fun y => !decide (y = b)) bs := by
            rw [List.mem_filter]
            simp [hmem]
          have h2 : x ∉ b :: bs := by simp [hxb, hmem]
          rw [if_neg h1, if_neg h2, List.cons_append]

/-- Python `dict.setdefault(k, []).append(v)` on an insertion-ordered dict. -/
def addToDict (d : List (String × List String)) (k v : String) :
    List (String × List String) :=
  match d with
  | [] => [(k, [v])]
  | (k0, vs) :: rest =>
    if k0 = k then (k0, vs ++ [v]) :: rest else (k0, vs) :: addToDict rest k v

/-- The dict obtained by inserting a list of (key, value) pairs in order:
keys in first-seen order, each mapped to its values in insertion order. -/
def dictOf (ps : List (String × String)) : List (String × List String) :=
  (firstDedup (ps.map Prod.fst)).map
    (fun k => (k, (ps.filter (fun p => decide (p.1 = k))).map Prod.snd))

theorem addToDict_mapform (ks : List String) (f : String → List String) (k v : String)
    (hk : ks.Nodup) :
    addToDict (ks.map (fun x => (x, f x))) k v =
      if k ∈ ks then ks.map (fun x => (x, f x ++ if x = k then [v] else []))
      else ks.map (fun x => (x, f x)) ++ [(k, [v])] := by
  induction ks with
  | nil => simp [addToDict]
  | cons k0 kt ih =>
    simp only [List.map_cons, addToDict]
    by_cases h0 : k0 = k
    · subst h0
      rw [if_pos rfl, if_pos (List.mem_cons_self _ _), if_pos rfl]
      have hnot : k0 ∉ kt := (List.nodup_cons.mp hk).1
      have hmap : kt.map (fun x => (x, f x ++ if x = k0 then [v] else []))
          = kt.map (fun x => (x, f x)) := by
        apply List.map_congr_left
        intro x hx
        have hxk : ¬ (x = k0) := fun he => hnot (he ▸ hx)
        rw [if_neg hxk, List.append_nil]
      rw [hmap]
    · rw [if_neg h0, ih (List.nodup_cons.mp hk).2]
      by_cases hmem : k ∈ kt
      · rw [if_pos hmem, if_pos (List.mem_cons_of_mem _ hmem), if_neg h0, List.append_nil]
      · have hnot2 : k ∉ k0 :: kt := by
          intro hcon
          rcases List.mem_cons.mp hcon with he | hm
          · exact h0 he.symm
          · exact hmem hm
        rw [if_neg hmem, if_neg hnot2, List.cons_append]

theorem dictOf_append_singleton (ps : List (String × String)) (k v : String) :
    dictOf (ps ++ [(k, v)]) = addToDict (dictOf ps) k v := by
  unfold dictOf
  rw [addToDict_mapform _ _ _ _ (nodup_firstDedup _)]
  simp only [List.map_append, List.map_cons, List.map_nil]
  rw [firstDedup_append_singleton]
  by_cases hmem : k ∈ ps.map Prod.fst
  · rw [if_pos hmem]
    have hmem2 : k ∈ firstDedup (ps.map Prod.fst) := (mem_firstDedup _ _).mpr hmem
    rw [if_pos hmem2]
    apply List.map_congr_left
    intro x _
    rw [List.filter_append, List.map_append]
    refine congrArg (fun t => (x, List.map Prod.snd (List.filter (fun p => decide (p.1 = x)) ps) ++ t)) ?_
    by_cases hxk : x = k
    · subst hxk
      simp
    · have hkx : ¬ (k = x) := fun he => hxk he.symm
      simp [hkx, hxk]
  · rw [if_neg hmem]
    have hmem2 : k ∉ firstDedup (ps.map Prod.fst) := by
      rw [mem_firstDedup]
      exact hmem
    rw [if_neg hmem2, List.map_append]
    refine congrArg₂ (fun a b : List (String × List String) => a ++ b) ?_ ?_
    · apply List.map_congr_left
      intro x hx
      rw [List.filter_append]
      have hkx : ¬ (k = x) := by
        intro he
        exact hmem (he ▸ ((mem_firstDedup _ _).mp hx))
      simp [hkx]
    · have hnil : ps.filter (fun p => decide (p.1 = k)) = [] := by
        apply List.filter_eq_nil_iff.mpr
        intro p hp
        simp only [decide_eq_true_eq]
        intro he
        exact hmem (he ▸ List.mem_map_of_mem Prod.fst hp)
      simp [hnil]

theorem foldl_addToDict (ps : List (String × String)) :
    ps.foldl (fun d p => addToDict d p.1 p.2) [] = dictOf ps := by
  induction ps using List.reverseRecOn with
  | nil => simp [dictOf, firstDedup_nil]
  | append_singleton ps p ih =>
    rw [List.foldl_append, List.foldl_cons, List.foldl_nil, ih]
    rw [← dictOf_append_singleton]

theorem filter_singleton_of_nodup (ps : List (String × String))
    (h : (ps.map Prod.fst).Nodup) (p : String × String) (hp : p ∈ ps) :
    ps.filter (fun q => decide (q.1 = p.1)) = [p] := by
  induction ps with
  | nil => cases hp
  | cons q qs ih =>
    have hnodup : (q.1 :: qs.map Prod.fst).Nodup := by simpa using h
    have hq1 : q.1 ∉ qs.map Prod.fst := (List.nodup_cons.mp hnodup).1
    rcases List.mem_cons.mp hp with he | hmem
    · subst he
      rw [List.filter_cons, if_pos (by simp)]
      refine congrArg (fun t => p :: t) ?_
      apply List.filter_eq_nil_iff.mpr
      intro r hr
      simp only [decide_eq_true_eq]
      intro hre
      exact hq1 (hre ▸ List.mem_map_of_mem Prod.fst hr)
    · have hqp : ¬ (q.1 = p.1) := by
        intro he
        exact hq1 (he ▸ List.mem_map_of_mem Prod.fst hmem)
      rw [List.filter_cons, if_neg (by simp [hqp])]
      exact ih (List.nodup_cons.mp hnodup).2 hmem

theorem foldl_addToDict_nodup (ps : List (String × String))
    (h : (ps.map Prod.fst).Nodup) :
    ps.foldl (fun d p => addToDict d p.1 p.2) [] = ps.map (fun p => (p.1, [p.2])) := by
  rw [foldl_addToDict]
  unfold dictOf
  rw [firstDedup_eq_self _ h, List.map_map]
  apply List.map_congr_left
  intro p hp
  simp only [Function.comp]
  rw [filter_singleton_of_nodup ps h p hp]
  rfl

theorem foldl_guard {α : Type} (c : α → Bool) (k v : α → String) (l : List α)
    (init : List (String × List String)) :
    l.foldl (fun d p => if c p then addToDict d (k p) (v p) else d) init
      = ((l.filter c).map (fun p => (k p, v p))).foldl
          (fun d q => addToDict d q.1 q.2) init := by
  induction l generalizing init with
  | nil => rfl
  | cons a t ih =>
    rw [List.foldl_cons, List.filter_cons]
    by_cases h : c a
    · rw [if_pos h, if_pos h, List.map_cons, List.foldl_cons]
      exact ih _
    · rw [if_neg h, if_neg h]
      exact ih _

/-! ### Used-area detection (`get_used_area`) -/

/-- A row is empty when every cell across the nominal columns has value `None`. -/
def rowIsEmpty (sheet : Worksheet) (row : Nat) : Bool :=
  (List.range' 1 sheet.maxColumn).all (fun col => ((sheet.cells row col).value).isNone)

/-- A column is empty when every cell across the nominal rows has value `None`. -/
def columnIsEmpty (sheet : Worksheet) (col : Nat) : Bool :=
  (List.range' 1 sheet.maxRow).all (fun row => ((sheet.cells row col).value).isNone)

/-- The backward scan `for row in range(max_row, 0, -1)` counting empty rows,
stopping at the first non-empty row. -/
def countEmptyRowsFrom (sheet : Worksheet) : Nat → Nat
  | 0 => 0
  | r + 1 => if rowIsEmpty sheet (r + 1) then countEmptyRowsFrom sheet r + 1 else 0

/-- The backward scan `for col in range(max_column, 0, -1)` counting empty
columns, stopping at the first non-empty column. -/
def countEmptyColumnsFrom (sheet : Worksheet) : Nat → Nat
  | 0 => 0
  | c + 1 => if columnIsEmpty sheet (c + 1) then countEmptyColumnsFrom sheet c + 1 else 0

/-- The dictionary `get_used_area` returns. -/
structure UsedArea where
  empty_rows : Nat
  empty_columns : Nat
  last_used_row : Nat
  last_used_column : Nat
deriving DecidableEq, Repr

/-- `get_used_area`: counts the empty rows at the bottom and empty columns at
the right of the nominal extent, and subtracts them from the nominal extent. -/
def get_used_area (sheet : Worksheet) : UsedArea :=
  let empty_row_count := countEmptyRowsFrom sheet sheet.maxRow
  let empty_column_count := countEmptyColumnsFrom sheet sheet.maxColumn
  { empty_rows := empty_row_count
    empty_columns := empty_column_count
    last_used_row := sheet.maxRow - empty_row_count
    last_used_column := sheet.maxColumn - empty_column_count }

theorem countEmptyRowsFrom_eq_takeWhile (sheet : Worksheet) (n : Nat) :
    countEmptyRowsFrom sheet n
      = ((List.range' 1 n).reverse.takeWhile (fun r => rowIsEmpty sheet r)).length := by
  induction n with
  | zero => rfl
  | succ n ih =>
    have hconcat : List.range' 1 (n + 1) = List.range' 1 n ++ [1 + n] := by
      simpa using @List.range'_concat 1 1 n
    rw [countEmptyRowsFrom, hconcat, List.reverse_append]
    simp only [List.reverse_cons, List.reverse_nil, List.nil_append, List.singleton_append,
      List.takeWhile_cons]
    have hrw : 1 + n = n + 1 := Nat.add_comm 1 n
    rw [hrw]
    by_cases h : rowIsEmpty sheet (n + 1)
    · rw [if_pos h, h]
      simp [ih]
    · rw [if_neg h]
      rw [Bool.not_eq_true] at h
      rw [h]
      simp

theorem countEmptyColumnsFrom_eq_takeWhile (sheet : Worksheet) (n : Nat) :
    countEmptyColumnsFrom sheet n
      = ((List.range' 1 n).reverse.takeWhile (fun c => columnIsEmpty sheet c)).length := by
  induction n with
  | zero => rfl
  | succ n ih =>
    have hconcat : List.range' 1 (n + 1) = List.range' 1 n ++ [1 + n] := by
      simpa using @List.range'_concat 1 1 n
    rw [countEmptyColumnsFrom, hconcat, List.reverse_append]
    simp only [List.reverse_cons, List.reverse_nil, List.nil_append, List.singleton_append,
      List.takeWhile_cons]
    have hrw : 1 + n = n + 1 := Nat.add_comm 1 n
    rw [hrw]
    by_cases h : columnIsEmpty sheet (n + 1)
    · rw [if_pos h, h]
      simp [ih]
    · rw [if_neg h]
      rw [Bool.not_eq_true] at h
      rw [h]
      simp

theorem countEmptyRowsFrom_of_all_none (sheet : Worksheet)
    (h : ∀ r c, (sheet.cells r c).value = none) (n : Nat) :
    countEmptyRowsFrom sheet n = n := by
  induction n with
  | zero => rfl
  | succ n ih =>
    rw [countEmptyRowsFrom]
    have hempty : rowIsEmpty sheet (n + 1) = true := by
      unfold rowIsEmpty
      rw [List.all_eq_true]
      intro c _
      rw [h (n + 1) c]
      rfl
    rw [if_pos hempty, ih]

theorem countEmptyColumnsFrom_of_all_none (sheet : Worksheet)
    (h : ∀ r c, (sheet.cells r c).value = none) (n : Nat) :
    countEmptyColumnsFrom sheet n = n := by
  induction n with
  | zero => rfl
  | succ n ih =>
    rw [countEmptyColumnsFrom]
    have hempty : columnIsEmpty sheet (n + 1) = true := by
      unfold columnIsEmpty
      rw [List.all_eq_true]
      intro r _
      rw [h r (n + 1)]
      rfl
    rw [if_pos hempty, ih]

/-! ### Sheet-set differ (`validate_tabs_between_spreadsheets`) -/

/-- The result record shared by all comparators: `status`, `description` and an
insertion-ordered `errors` dict mapping category names to detail strings. -/
structure ComparisonResult where
  status : String
  description : String
  errors : List (String × List String)
deriving DecidableEq, Repr

/-- The final step shared by the comparators: `Error` with the accumulated
errors when any were found, else `Ok` with empty errors. -/
def mkResult (okDesc errDesc : String) (errors : List (String × List String)) :
    ComparisonResult :=
  if errors = [] then { status := "Ok", description := okDesc, errors := [] }
  else { status := "Error", description := errDesc, errors := errors }

theorem mkResult_errors (okDesc errDesc : String) (errors : List (String × List String)) :
    (mkResult okDesc errDesc errors).errors = errors := by
  unfold mkResult
  split
  · next he => exact he.symm
  · rfl

theorem mkResult_ok_iff (okDesc errDesc : String) (errors : List (String × List String)) :
    (mkResult okDesc errDesc errors).status = "Ok"
      ↔ (mkResult okDesc errDesc errors).errors = [] := by
  unfold mkResult
  split
  · next he => simp
  · next he =>
      simp only []
      constructor
      · intro hfalse
        exact absurd hfalse (by decide)
      · intro herr
        exact absurd herr he

theorem mkResult_error_iff (okDesc errDesc : String) (errors : List (String × List String)) :
    (mkResult okDesc errDesc errors).status = "Error" ↔ ¬ (errors = []) := by
  unfold mkResult
  split
  · next he =>
      simp only []
      constructor
      · intro hfalse
        exact absurd hfalse (by decide)
      · intro hne
        exact absurd he hne
  · next he => simp [he]

/-- `validate_tabs_between_spreadsheets`: set-compare the sheet names of two
workbooks, reporting the names missing from each side. -/
def validate_tabs_between_spreadsheets (spreadsheet1 spreadsheet2 : Workbook) :
    ComparisonResult :=
  let sheets1 := spreadsheet1.sheetnames
  let sheets2 := spreadsheet2.sheetnames
  let missing_in_1 := firstDedup (sheets2.filter (fun s => !decide (s ∈ sheets1)))
  let missing_in_2 := firstDedup (sheets1.filter (fun s => !decide (s ∈ sheets2)))
  if missing_in_1 = [] ∧ missing_in_2 = [] then
    { status := "Ok"
      description := "Both spreadsheets have the same sheet names."
      errors := [] }
  else
    { status := "Error"
      description := "Spreadsheets have different sheet names."
      errors :=
        (if missing_in_1 = [] then [] else [("Missing In Spreadsheet 1", missing_in_1)]) ++
        (if missing_in_2 = [] then [] else [("Missing In Spreadsheet 2", missing_in_2)]) }

/-! ### Structure comparator (`check_sheet_structure`) -/

/-- The header row of a sheet read across columns `1..cols`. -/
def headerOf (sheet : Worksheet) (row cols : Nat) : List (Option PyVal) :=
  (List.range' 1 cols).map (fun c => (sheet.cells row c).value)

/-- The `"Header Mismatch"` detail lines: positional comparison of the zipped
headers, one line per differing position with its 1-based column index. -/
def headerMismatchList (header1 header2 : List (Option PyVal)) : List String :=
  ((header1.zip header2).enum.filter (fun p => !decide (p.2.1 = p.2.2))).map
    (fun p => "Column " ++ natRepr (p.1 + 1) ++ ": Template: [" ++ pyStr p.2.1
      ++ "] != [" ++ pyStr p.2.2 ++ "] :Company")

/-- `check_sheet_structure`: emptiness check, used-area shape check and
optional header check, accumulated into one `ComparisonResult`. -/
def check_sheet_structure (sheet1 sheet2 : Worksheet) (header_row_number : Nat) :
    ComparisonResult :=
  let emptySheetIssues : List String :=
    if sheet1.maxRow = 1 ∧ sheet1.maxColumn = 1 ∧ sheet2.maxRow = 1 ∧ sheet2.maxColumn = 1
    then []
    else
      (if sheet1.maxRow = 1 ∨ sheet1.maxColumn = 1 then [sheet1.title] else []) ++
      (if sheet2.maxRow = 1 ∨ sheet2.maxColumn = 1 then [sheet2.title] else [])
  let shape1 := get_used_area sheet1
  let shape2 := get_used_area sheet2
  let rows1 := shape1.last_used_row
  let cols1 := shape1.last_used_column
  let rows2 := shape2.last_used_row
  let cols2 := shape2.last_used_column
  let rcIssues : List String :=
    if rows1 = rows2 ∧ cols1 = cols2 then []
    else ["Template file has " ++ natRepr rows1 ++ " rows and " ++ natRepr cols1
      ++ " columns, Company file has " ++ natRepr rows2 ++ " rows and "
      ++ natRepr cols2 ++ " columns."]
  let header1 := if 0 < header_row_number then headerOf sheet1 header_row_number cols1 else []
  let header2 := if 0 < header_row_number then headerOf sheet2 header_row_number cols2 else []
  let headerIssues : List String :=
    if header1 = header2 then [] else headerMismatchList header1 header2
  let errors :=
    (if emptySheetIssues = [] then [] else [("Empty Sheet", emptySheetIssues)]) ++
    (if rcIssues = [] then [] else [("Row/Column Count", rcIssues)]) ++
    (if headerIssues = [] then [] else [("Header Mismatch", headerIssues)])
  mkResult ("Spreadsheets " ++ sq ++ sheet1.title ++ sq ++ " and " ++ sq
      ++ sheet2.title ++ sq ++ " have the same structure.")
    ("The following discrepancies were found in the sheet structure:")
    errors

/-! ### Formula comparator (`compare_formulas`) -/

/-- All cell positions `(row, col)` of a `rows x cols` sheet in the row-major
order of the nested `for` loops. -/
def allPositions (rows cols : Nat) : List (Nat × Nat) :=
  (List.range' 1 rows).flatMap (fun r => (List.range' 1 cols).map (fun c => (r, c)))

/-- Python `s.startswith(pre)`, computed on the character lists. -/
def strStartsWith (s pre : String) : Bool := pre.data.isPrefixOf s.data

/-- A cell value counts as a formula when it is text beginning with `=`. -/
def isFormulaVal : Option PyVal → Bool
  | some (.str s) => strStartsWith s ("=")
  | _ => false

/-- The message for one differing formula cell. -/
def formulaDiffMsg (sheet1 sheet2 : Worksheet) (row col : Nat) : String :=
  sheet1.title ++ "!" ++ cellName col row ++ " (" ++ pyStr (sheet1.cells row col).value
    ++ ") != " ++ sheet2.title ++ "!" ++ cellName col row ++ " ("
    ++ pyStr (sheet2.cells row col).value ++ ")"

/-- The guard of the `compare_formulas` cell loop: both cells hold formulas
and the texts differ. -/
def formulaDiffCond (sheet1 sheet2 : Worksheet) (p : Nat × Nat) : Bool :=
  isFormulaVal (sheet1.cells p.1 p.2).value && isFormulaVal (sheet2.cells p.1 p.2).value
    && !decide ((sheet1.cells p.1 p.2).value = (sheet2.cells p.1 p.2).value)

/-- `compare_formulas`: short-circuit on differing nominal dimensions, else
compare formula text cell by cell, grouping messages by cell reference. -/
def compare_formulas (sheet1 sheet2 : Worksheet) : ComparisonResult :=
  let rows1 := sheet1.maxRow
  let cols1 := sheet1.maxColumn
  let rows2 := sheet2.maxRow
  let cols2 := sheet2.maxColumn
  if ¬ (rows1 = rows2 ∧ cols1 = cols2) then
    { status := "Error"
      description := "Sheets have different dimensions: " ++ sq ++ sheet1.title ++ sq
        ++ " has " ++ natRepr rows1 ++ " rows & " ++ natRepr cols1 ++ " columns, "
        ++ sq ++ sheet2.title ++ sq ++ " has " ++ natRepr rows2 ++ " rows & "
        ++ natRepr cols2 ++ " columns."
      errors := [] }
  else
    let differing_cells :=
      (allPositions rows1 cols1).foldl
        (fun d p =>
          if formulaDiffCond sheet1 sheet2 p then
            addToDict d (cellName p.2 p.1) (formulaDiffMsg sheet1 sheet2 p.1 p.2)
          else d) []
    mkResult ("All formulas are equivalent") ("Found formula differences") differing_cells

/-! ### Formula-error scanner (`check_formula_errors`) -/

/-- Whether a cell value is a Python string. -/
def isStrVal : Option PyVal → Bool
  | some (.str _) => true
  | _ => false

/-- The text of a string-valued cell (unused default for other values). -/
def strValOf : Option PyVal → String
  | some (.str s) => s
  | _ => ""

/-- `check_formula_errors`: scan all cells; a cell with `data_type == 'e'` and
a string value is recorded under its error text, keyed to its cell reference. -/
def check_formula_errors (sheet : Worksheet) : ComparisonResult :=
  let error_details :=
    (allPositions sheet.maxRow sheet.maxColumn).foldl
      (fun d p =>
        if (sheet.cells p.1 p.2).dataTypeE then
          if isStrVal (sheet.cells p.1 p.2).value then
            addToDict d (strValOf (sheet.cells p.1 p.2).value) (cellName p.2 p.1)
          else d
        else d) []
  mkResult ("No errors found") ("Found errors") error_details

/-! ### Event normalizer

Each specialization turns a `ComparisonResult`-like dict plus a context tuple
into flat validation-event rows, or fails on bad contexts.  Context fields are
`Option String`: `none` models Python `None`, `some ""` an empty string.  The
`Event_Id` column (a fresh `uuid4` per row) is nondeterministic I/O and is not
modelled. -/

/-- Python truthiness of an optional string: `None` and `""` are falsy. -/
def strTruthy : Option String → Bool
  | none => false
  | some s => !decide (s = "")

/-- One flat validation-event row (minus the generated `Event_Id`). -/
structure ValidationRow where
  Sheet_Cd : Option String
  Rule_Cd : Option String
  Cell_Reference : Option String
  Error_Category : Option String
  Error_Severity_Cd : Option String
  Error_Desc : String
deriving DecidableEq, Repr

/-- The `MissingSheetContext` namedtuple. -/
structure MissingSheetContext where
  Rule_Cd : Option String
  Error_Category : Option String
  Error_Severity_Cd : Option String
deriving DecidableEq, Repr

/-- `create_missing_sheet_row`: validates the sheet name and every context
field (non-empty strings), then builds one row. -/
def create_missing_sheet_row (sheet : String) (context : MissingSheetContext) :
    Except String ValidationRow :=
  if sheet = "" then
    .error "The sheet argument must be a non-empty string."
  else if !strTruthy context.Rule_Cd then
    .error "Invalid Rule_Cd in context: it must be a non-empty string."
  else if !strTruthy context.Error_Category then
    .error "Invalid Error_Category in context: it must be a non-empty string."
  else if !strTruthy context.Error_Severity_Cd then
    .error "Invalid Error_Severity_Cd in context: it must be a non-empty string."
  else
    .ok { Sheet_Cd := some sheet
          Rule_Cd := context.Rule_Cd
          Cell_Reference := none
          Error_Category := context.Error_Category
          Error_Severity_Cd := context.Error_Severity_Cd
          Error_Desc := "Missing Sheet" }

/-- `create_dataframe_missing_sheets`: one row per name under
`"Missing In Spreadsheet 2"`; a missing or non-list field degrades to `[]`. -/
def create_dataframe_missing_sheets (input_data : ComparisonResult)
    (context : MissingSheetContext) : Except String (List ValidationRow) :=
  let missing_sheets := (input_data.errors.lookup "Missing In Spreadsheet 2").getD []
  missing_sheets.mapM (fun sheet =>
    if sheet = "" then
      Except.error "Invalid sheet name. Each sheet must be a non-empty string."
    else create_missing_sheet_row sheet context)

/-- The `FormulaErrorSheetContext` namedtuple. -/
structure FormulaErrorSheetContext where
  Rule_Cd : Option String
  Sheet_Cd : Option String
  Error_Category : Option String
  Error_Severity_Cd : Option String
deriving DecidableEq, Repr

/-- `validate_input_data`: rejects a context any of whose fields is `None`
(empty strings pass). -/
def validate_input_data (context : FormulaErrorSheetContext) : Except String Unit :=
  if context.Rule_Cd = none ∨ context.Sheet_Cd = none ∨ context.Error_Category = none ∨
      context.Error_Severity_Cd = none then
    .error "The context values cannot be None."
  else
    .ok ()

/-- `create_row_for_error`: one row for a single formula-error cell. -/
def create_row_for_error (sheet_cd : Option String) (error_type : String) (cell : String)
    (context : FormulaErrorSheetContext) : ValidationRow :=
  { Sheet_Cd := sheet_cd
    Rule_Cd := context.Rule_Cd
    Cell_Reference := some cell
    Error_Category := context.Error_Category
    Error_Severity_Cd := context.Error_Severity_Cd
    Error_Desc := error_type }

/-- `create_dataframe_formula_errors`: validate, then one row per
(error text, cell) pair of the `errors` dict. -/
def create_dataframe_formula_errors (input_data : ComparisonResult)
    (context : FormulaErrorSheetContext) : Except String (List ValidationRow) :=
  match validate_input_data context with
  | .error e => .error e
  | .ok _ =>
    .ok (input_data.errors.flatMap (fun er =>
      er.2.map (fun cell => create_row_for_error context.Sheet_Cd er.1 cell context)))

/-- The `StructureDiscrepancyContext` namedtuple. -/
structure StructureDiscrepancyContext where
  Rule_Cd : Option String
  Sheet_Cd : Option String
  Error_Category : Option String
  Error_Severity_Cd : Option String
deriving DecidableEq, Repr

/-- `create_dataframe_structure_discrepancies`: rejects a context with any
falsy (`None` or empty) field, then one row per error category with the
details joined by `" -- "`. -/
def create_dataframe_structure_discrepancies (input_data : ComparisonResult)
    (context : StructureDiscrepancyContext) : Except String (List ValidationRow) :=
  if !(strTruthy context.Rule_Cd && strTruthy context.Error_Severity_Cd
      && strTruthy context.Sheet_Cd && strTruthy context.Error_Category) then
    .error "The context contains missing values."
  else
    .ok (input_data.errors.map (fun e =>
      { Sheet_Cd := context.Sheet_Cd
        Rule_Cd := context.Rule_Cd
        Cell_Reference := none
        Error_Category := context.Error_Category
        Error_Severity_Cd := context.Error_Severity_Cd
        Error_Desc := String.intercalate (" -- ") e.2 }))

/-- The `FormulaDifferencesContext` namedtuple. -/
structure FormulaDifferencesContext where
  Rule_Cd : Option String
  Sheet_Cd : Option String
  Error_Category : Option String
  Error_Severity_Cd : Option String
deriving DecidableEq, Repr

/-- `create_dataframe_formula_differences`: rejects a context with any falsy
field, then one row per cell reference with the details joined by `" -- "`. -/
def create_dataframe_formula_differences (input_data : ComparisonResult)
    (context : FormulaDifferencesContext) : Except String (List ValidationRow) :=
  if !(strTruthy context.Rule_Cd && strTruthy context.Error_Severity_Cd
      && strTruthy context.Sheet_Cd && strTruthy context.Error_Category) then
    .error "The context contains missing values."
  else
    .ok (input_data.errors.map (fun e =>
      { Sheet_Cd := context.Sheet_Cd
        Rule_Cd := context.Rule_Cd
        Cell_Reference := some e.1
        Error_Category := context.Error_Category
        Error_Severity_Cd := context.Error_Severity_Cd
        Error_Desc := String.intercalate (" -- ") e.2 }))

/-! ### Orchestrators -/

/-- The sheet names common to both workbooks (Python set intersection). -/
def commonSheetnames (wb_template wb_company : Workbook) : List String :=
  firstDedup (wb_template.sheetnames.filter (fun s => decide (s ∈ wb_company.sheetnames)))

/-- `pandas.concat`: raises `ValueError` on an empty list of frames. -/
def pd_concat (dfs : List (List ValidationRow)) : Except String (List ValidationRow) :=
  if dfs = [] then .error "No objects to concatenate" else .ok dfs.flatten

/-- `find_shape_differences`: run the structure comparator on every common
sheet (header row 2 for `fOut_` sheets) and concatenate, returning an
explicit empty frame when there are no common sheets. -/
def find_shape_differences (wb_template wb_company : Workbook) :
    Except String (List ValidationRow) := do
  let common := commonSheetnames wb_template wb_company
  let dfs ← common.mapM (fun sheetname =>
    let context : StructureDiscrepancyContext :=
      { Rule_Cd := some "?"
        Sheet_Cd := some sheetname
        Error_Category := some "Structure Discrepancy"
        Error_Severity_Cd := some "hard" }
    let header_row_number := if strStartsWith sheetname ("fOut_") then 2 else 0
    let discrepancies := check_sheet_structure (wb_template.getSheet sheetname)
      (wb_company.getSheet sheetname) header_row_number
    create_dataframe_structure_discrepancies discrepancies context)
  if dfs = [] then return [] else return dfs.flatten

/-- `find_formula_differences`: run the formula comparator on every common
sheet and concatenate; there is no empty-list guard, so zero common sheets
reach `pd.concat` with an empty list. -/
def find_formula_differences (wb_template wb_company : Workbook) :
    Except String (List ValidationRow) := do
  let common := commonSheetnames wb_template wb_company
  let dfs ← common.mapM (fun sheetcd =>
    let context : FormulaDifferencesContext :=
      { Rule_Cd := some "?"
        Sheet_Cd := some sheetcd
        Error_Category := some "Formula Difference"
        Error_Severity_Cd := some "hard" }
    create_dataframe_formula_differences
      (compare_formulas (wb_template.getSheet sheetcd) (wb_company.getSheet sheetcd)) context)
  pd_concat dfs

/-! ### Duplicate-description checker

`create_same_desc_diff_boncode_validation_event` is exercised by the test
suite but its definition is not among the provided sources, so it is modelled
from the specification. -/

/-- One measure record (`Measure_Cd`, `Measure_Desc`, `Sheet_Cd`). -/
structure MeasureRow where
  Measure_Cd : String
  Measure_Desc : String
  Sheet_Cd : String
deriving DecidableEq, Repr

/-- A tabular input: column names plus rows. -/
structure MeasureDF where
  columns : List String
  rows : List MeasureRow
deriving DecidableEq, Repr

/-- The batch metadata forwarded verbatim into every emitted event. -/
structure BatchMetadata where
  Batch_Id : String
  Submission_Period_Cd : String
  Process_Cd : String
  Template_Version : String
  Organisation_Cd : String
deriving DecidableEq, Repr

/-- One duplicate-description validation event. -/
structure BoncodeEvent where
  Batch_Id : String
  Submission_Period_Cd : String
  Process_Cd : String
  Template_Version : String
  Organisation_Cd : String
  Error_Desc : String
deriving DecidableEq, Repr

/-- Group rows by `Measure_Desc`, first-seen order of descriptions, each group
keeping its rows in input order. -/
def groupByDesc : List MeasureRow → List (String × List MeasureRow)
  | [] => []
  | r :: rs =>
    (r.Measure_Desc, r :: rs.filter (fun x => decide (x.Measure_Desc = r.Measure_Desc))) ::
      groupByDesc (rs.filter (fun x => !decide (x.Measure_Desc = r.Measure_Desc)))
termination_by l => l.length
decreasing_by
  exact Nat.lt_succ_of_le (List.length_filter_le _ _)

/-- The rendered `(Measure_Cd, Sheet_Cd)` pair of one record. -/
def pairText (r : MeasureRow) : String := r.Measure_Cd ++ " -- " ++ r.Sheet_Cd

/-- The event emitted for one qualifying group. -/
def mkBoncodeEvent (metadata : BatchMetadata) (g : List MeasureRow) : BoncodeEvent :=
  { Batch_Id := metadata.Batch_Id
    Submission_Period_Cd := metadata.Submission_Period_Cd
    Process_Cd := metadata.Process_Cd
    Template_Version := metadata.Template_Version
    Organisation_Cd := metadata.Organisation_Cd
    Error_Desc := String.intercalate (" -- ") ((firstDedup (g.map pairText))) }

/-- Modelled from the spec: `create_same_desc_diff_boncode_validation_event`
is not present under the provided sources (only its tests are).  Per the
specification it fails on missing required columns, groups records by
`Measure_Desc`, and emits exactly one event per group in which more than one
distinct `Measure_Cd` occurs, whose description lists every
`(Measure_Cd, Sheet_Cd)` pair of the group joined by `" -- "` in first-seen
order; batch metadata is forwarded verbatim. -/
def create_same_desc_diff_boncode_validation_event (df : MeasureDF)
    (metadata : BatchMetadata) : Except String (List BoncodeEvent) :=
  if ¬ ("Measure_Cd" ∈ df.columns ∧ "Measure_Desc" ∈ df.columns ∧ "Sheet_Cd" ∈ df.columns)
  then
    .error "Missing required columns"
  else
    .ok (((groupByDesc df.rows).filter
        (fun g => decide (1 < (firstDedup (g.2.map (fun r => r.Measure_Cd))).length))).map
      (fun g => mkBoncodeEvent metadata g.2))

/-! ### Claim theorems -/

theorem bool_eq_of_iff {a b : Bool} (h : a = true ↔ b = true) : a = b := by
  cases a <;> cases b <;> simp_all

theorem rowIsEmpty_iff (sheet : Worksheet) (r : Nat) :
    rowIsEmpty sheet r = true
      ↔ ∀ c ∈ List.range' 1 sheet.maxColumn, (sheet.cells r c).value = none := by
  unfold rowIsEmpty
  rw [List.all_eq_true]
  constructor
  · intro h c hc
    have := h c hc
    rwa [Option.isNone_iff_eq_none] at this
  · intro h c hc
    rw [Option.isNone_iff_eq_none]
    exact h c hc

theorem columnIsEmpty_iff (sheet : Worksheet) (c : Nat) :
    columnIsEmpty sheet c = true
      ↔ ∀ r ∈ List.range' 1 sheet.maxRow, (sheet.cells r c).value = none := by
  unfold columnIsEmpty
  rw [List.all_eq_true]
  constructor
  · intro h r hr
    have := h r hr
    rwa [Option.isNone_iff_eq_none] at this
  · intro h r hr
    rw [Option.isNone_iff_eq_none]
    exact h r hr

/-- Claim C8: the Used-Area Detector counts, from the last nominal row
backward, the consecutive rows in which every cell across all nominal columns
has no value, stopping at the first non-empty row; symmetrically for columns
over the full nominal row range; and the last used row/column are the nominal
extents minus those counts. -/
theorem used_area_scan_characterization (sheet : Worksheet) :
    (get_used_area sheet).empty_rows
      = ((List.range' 1 sheet.maxRow).reverse.takeWhile
          (fun r => decide (∀ c ∈ List.range' 1 sheet.maxColumn,
            (sheet.cells r c).value = none))).length
  ∧ (get_used_area sheet).empty_columns
      = ((List.range' 1 sheet.maxColumn).reverse.takeWhile
          (fun c => decide (∀ r ∈ List.range' 1 sheet.maxRow,
            (sheet.cells r c).value = none))).length
  ∧ (get_used_area sheet).last_used_row
      = sheet.maxRow - (get_used_area sheet).empty_rows
  ∧ (get_used_area sheet).last_used_column
      = sheet.maxColumn - (get_used_area sheet).empty_columns := by
  have hrow : (fun r => rowIsEmpty sheet r)
      = (fun r => decide (∀ c ∈ List.range' 1 sheet.maxColumn,
          (sheet.cells r c).value = none)) := by
    funext r
    apply bool_eq_of_iff
    rw [decide_eq_true_eq]
    exact rowIsEmpty_iff sheet r
  have hcol : (fun c => columnIsEmpty sheet c)
      = (fun c => decide (∀ r ∈ List.range' 1 sheet.maxRow,
          (sheet.cells r c).value = none)) := by
    funext c
    apply bool_eq_of_iff
    rw [decide_eq_true_eq]
    exact columnIsEmpty_iff sheet c
  refine ⟨?_, ?_, rfl, rfl⟩
  · show countEmptyRowsFrom sheet sheet.maxRow = _
    rw [countEmptyRowsFrom_eq_takeWhile, hrow]
  · show countEmptyColumnsFrom sheet sheet.maxColumn = _
    rw [countEmptyColumnsFrom_eq_takeWhile, hcol]

/-- A fully empty 3-row, 2-column sheet. -/
def emptySheet32 : Worksheet :=
  { title := "Empty", maxRow := 3, maxColumn := 2, cells := fun _ _ => {} }

/-- A fully empty 1-row, 1-column sheet (the openpyxl default shape). -/
def emptySheet11 : Worksheet :=
  { title := "Blank", maxRow := 1, maxColumn := 1, cells := fun _ _ => {} }

/-- Claim C5 counterexample: on a fully empty 3x2 sheet the detector returns
`empty_rows = 3` (the full nominal row count, not `3 - 1`) and
`last_used_row = last_used_column = 0` (not 1). -/
theorem used_area_empty_sheet_counterexample :
    get_used_area emptySheet32
        = { empty_rows := 3, empty_columns := 2, last_used_row := 0, last_used_column := 0 }
  ∧ ¬ (get_used_area emptySheet32
        = { empty_rows := 2, empty_columns := 1, last_used_row := 1, last_used_column := 1 }) := by
  constructor
  · decide
  · decide

/-- Claim C5 (amended): on a fully empty sheet the scan never meets a
non-empty row or column, so `empty_rows` equals the full nominal row count,
`empty_columns` the full nominal column count, and the last used row and
column are 0. -/
theorem used_area_empty_sheet_amended (sheet : Worksheet)
    (h : ∀ r c, (sheet.cells r c).value = none) :
    get_used_area sheet
      = { empty_rows := sheet.maxRow, empty_columns := sheet.maxColumn,
          last_used_row := 0, last_used_column := 0 } := by
  unfold get_used_area
  rw [countEmptyRowsFrom_of_all_none sheet h, countEmptyColumnsFrom_of_all_none sheet h]
  simp

/-- Witness for the amended C5 theorem at the 1x1 default empty sheet. -/
theorem used_area_empty_sheet_amended_witness :
    get_used_area emptySheet11
      = { empty_rows := 1, empty_columns := 1, last_used_row := 0, last_used_column := 0 } :=
  used_area_empty_sheet_amended emptySheet11 (fun _ _ => rfl)

theorem mem_missing (sheets1 sheets2 : List String) (n : String) :
    n ∈ firstDedup (sheets2.filter (fun s => !decide (s ∈ sheets1)))
      ↔ (n ∈ sheets2 ∧ n ∉ sheets1) := by
  rw [mem_firstDedup, List.mem_filter]
  simp

theorem missing_nil_iff (sheets1 sheets2 : List String) :
    firstDedup (sheets2.filter (fun s => !decide (s ∈ sheets1))) = []
      ↔ ∀ n ∈ sheets2, n ∈ sheets1 := by
  constructor
  · intro h n hn
    by_contra hmem
    have hin : n ∈ firstDedup (sheets2.filter (fun s => !decide (s ∈ sheets1))) :=
      (mem_missing sheets1 sheets2 n).mpr ⟨hn, hmem⟩
    rw [h] at hin
    cases hin
  · intro h
    rw [List.eq_nil_iff_forall_not_mem]
    intro n hn
    rw [mem_missing] at hn
    exact hn.2 (h n hn.1)

/-- Claim C9: the Sheet-Set Differ returns `Ok` iff the two sheet-name sets
are equal; `errors` is empty iff status is `Ok`; and the two `Missing In
Spreadsheet` categories hold exactly the names present in one workbook and
absent from the other. -/
theorem sheet_set_differ_characterization (wb1 wb2 : Workbook) :
    ((validate_tabs_between_spreadsheets wb1 wb2).status = "Ok"
        ↔ ∀ n : String, n ∈ wb1.sheetnames ↔ n ∈ wb2.sheetnames)
  ∧ ((validate_tabs_between_spreadsheets wb1 wb2).errors = []
        ↔ (validate_tabs_between_spreadsheets wb1 wb2).status = "Ok")
  ∧ (∀ n : String,
      (∃ l, ("Missing In Spreadsheet 1", l)
            ∈ (validate_tabs_between_spreadsheets wb1 wb2).errors ∧ n ∈ l)
        ↔ (n ∈ wb2.sheetnames ∧ n ∉ wb1.sheetnames))
  ∧ (∀ n : String,
      (∃ l, ("Missing In Spreadsheet 2", l)
            ∈ (validate_tabs_between_spreadsheets wb1 wb2).errors ∧ n ∈ l)
        ↔ (n ∈ wb1.sheetnames ∧ n ∉ wb2.sheetnames)) := by
  simp only [validate_tabs_between_spreadsheets]
  by_cases hc :
      firstDedup (wb2.sheetnames.filter (fun s => !decide (s ∈ wb1.sheetnames))) = []
      ∧ firstDedup (wb1.sheetnames.filter (fun s => !decide (s ∈ wb2.sheetnames))) = []
  · rw [if_pos hc]
    obtain ⟨h1, h2⟩ := hc
    rw [missing_nil_iff] at h1 h2
    refine ⟨?_, by simp, ?_, ?_⟩
    · simp only [true_iff]
      intro n
      exact ⟨fun hn => h2 n hn, fun hn => h1 n hn⟩
    · intro n
      simp only [List.not_mem_nil, false_and, exists_const, false_iff]
      intro hcon
      exact hcon.2 (h1 n hcon.1)
    · intro n
      simp only [List.not_mem_nil, false_and, exists_const, false_iff]
      intro hcon
      exact hcon.2 (h2 n hcon.1)
  · rw [if_neg hc]
    have hkey : ¬ (("Missing In Spreadsheet 1" : String) = "Missing In Spreadsheet 2") := by
      decide
    refine ⟨?_, ?_, ?_, ?_⟩
    · simp only [iff_iff_implies_and_implies]
      constructor
      · intro hfalse
        exact absurd hfalse (by decide)
      · intro hall
        exfalso
        apply hc
        constructor
        · rw [missing_nil_iff]
          intro n hn
          exact (hall n).2 hn
        · rw [missing_nil_iff]
          intro n hn
          exact (hall n).1 hn
    · simp only []
      constructor
      · intro herr
        exfalso
        by_cases hm1 :
            firstDedup (wb2.sheetnames.filter (fun s => !decide (s ∈ wb1.sheetnames))) = []
        · have hm2 :
              ¬ firstDedup (wb1.sheetnames.filter (fun s => !decide (s ∈ wb2.sheetnames))) = [] :=
            fun h2 => hc ⟨hm1, h2⟩
          rw [if_pos hm1, if_neg hm2] at herr
          simp at herr
        · rw [if_neg hm1] at herr
          simp at herr
      · intro hstat
        exact absurd hstat (by decide)
    · intro n
      constructor
      · rintro ⟨l, hmem, hnl⟩
        rw [List.mem_append] at hmem
        rcases hmem with hmem | hmem
        · by_cases hm1 :
              firstDedup (wb2.sheetnames.filter (fun s => !decide (s ∈ wb1.sheetnames))) = []
          · rw [if_pos hm1] at hmem
            cases hmem
          · rw [if_neg hm1] at hmem
            rcases List.mem_singleton.mp hmem with he
            have hl : l = firstDedup (wb2.sheetnames.filter (fun s => !decide (s ∈ wb1.sheetnames))) :=
              congrArg Prod.snd he
            rw [hl] at hnl
            exact (mem_missing _ _ _).mp hnl
        · by_cases hm2 :
              firstDedup (wb1.sheetnames.filter (fun s => !decide (s ∈ wb2.sheetnames))) = []
          · rw [if_pos hm2] at hmem
            cases hmem
          · rw [if_neg hm2] at hmem
            rcases List.mem_singleton.mp hmem with he
            exact absurd (congrArg Prod.fst he) hkey
      · intro hn
        have hin : n ∈ firstDedup (wb2.sheetnames.filter (fun s => !decide (s ∈ wb1.sheetnames))) :=
          (mem_missing _ _ _).mpr hn
        have hm1 :
            ¬ firstDedup (wb2.sheetnames.filter (fun s => !decide (s ∈ wb1.sheetnames))) = [] := by
          intro h0
          rw [h0] at hin
          cases hin
        refine ⟨firstDedup (wb2.sheetnames.filter (fun s => !decide (s ∈ wb1.sheetnames))),
          ?_, hin⟩
        rw [List.mem_append]
        left
        rw [if_neg hm1]
        exact List.mem_singleton.mpr rfl
    · intro n
      constructor
      · rintro ⟨l, hmem, hnl⟩
        rw [List.mem_append] at hmem
        rcases hmem with hmem | hmem
        · by_cases hm1 :
              firstDedup (wb2.sheetnames.filter (fun s => !decide (s ∈ wb1.sheetnames))) = []
          · rw [if_pos hm1] at hmem
            cases hmem
          · rw [if_neg hm1] at hmem
            rcases List.mem_singleton.mp hmem with he
            exact absurd (congrArg Prod.fst he).symm hkey
        · by_cases hm2 :
              firstDedup (wb1.sheetnames.filter (fun s => !decide (s ∈ wb2.sheetnames))) = []
          · rw [if_pos hm2] at hmem
            cases hmem
          · rw [if_neg hm2] at hmem
            rcases List.mem_singleton.mp hmem with he
            have hl : l = firstDedup (wb1.sheetnames.filter (fun s => !decide (s ∈ wb2.sheetnames))) :=
              congrArg Prod.snd he
            rw [hl] at hnl
            exact (mem_missing _ _ _).mp hnl
      · intro hn
        have hin : n ∈ firstDedup (wb1.sheetnames.filter (fun s => !decide (s ∈ wb2.sheetnames))) :=
          (mem_missing _ _ _).mpr hn
        have hm2 :
            ¬ firstDedup (wb1.sheetnames.filter (fun s => !decide (s ∈ wb2.sheetnames))) = [] := by
          intro h0
          rw [h0] at hin
          cases hin
        refine ⟨firstDedup (wb1.sheetnames.filter (fun s => !decide (s ∈ wb2.sheetnames))),
          ?_, hin⟩
        rw [List.mem_append]
        right
        rw [if_neg hm2]
        exact List.mem_singleton.mpr rfl

/-- Two sheets whose nominal dimensions differ (1x1 versus 2x1). -/
def dimSheetA : Worksheet :=
  { title := "A", maxRow := 1, maxColumn := 1, cells := fun _ _ => {} }

/-- See `dimSheetA`. -/
def dimSheetB : Worksheet :=
  { title := "B", maxRow := 2, maxColumn := 1, cells := fun _ _ => {} }

/-- Claim C1 counterexample: on sheets of differing nominal dimensions,
`compare_formulas` returns status `Error` with an EMPTY errors mapping, so
`status == Ok iff errors empty` fails there. -/
theorem comparison_result_invariant_counterexample :
    (compare_formulas dimSheetA dimSheetB).status = "Error"
  ∧ (compare_formulas dimSheetA dimSheetB).errors = [] := by
  constructor
  · rfl
  · rfl

/-- Claim C1 (amended): the `status == Ok iff errors empty` invariant holds
for the sheet-set differ, the structure comparator, the formula-error scanner,
and for the formula comparator when the nominal dimensions agree; when they
differ, `compare_formulas` intentionally returns `Error` with empty errors,
violating the invariant. -/
theorem comparison_result_invariant_amended :
    (∀ wb1 wb2 : Workbook,
      ((validate_tabs_between_spreadsheets wb1 wb2).status = "Ok"
        ↔ (validate_tabs_between_spreadsheets wb1 wb2).errors = []))
  ∧ (∀ (s1 s2 : Worksheet) (h : Nat),
      ((check_sheet_structure s1 s2 h).status = "Ok"
        ↔ (check_sheet_structure s1 s2 h).errors = []))
  ∧ (∀ s : Worksheet,
      ((check_formula_errors s).status = "Ok" ↔ (check_formula_errors s).errors = []))
  ∧ (∀ s1 s2 : Worksheet, (s1.maxRow = s2.maxRow ∧ s1.maxColumn = s2.maxColumn) →
      ((compare_formulas s1 s2).status = "Ok" ↔ (compare_formulas s1 s2).errors = []))
  ∧ (∀ s1 s2 : Worksheet, ¬ (s1.maxRow = s2.maxRow ∧ s1.maxColumn = s2.maxColumn) →
      (compare_formulas s1 s2).status = "Error" ∧ (compare_formulas s1 s2).errors = []) := by
  refine ⟨?_, ?_, ?_, ?_, ?_⟩
  · intro wb1 wb2
    simp only [validate_tabs_between_spreadsheets]
    by_cases hc :
        firstDedup (wb2.sheetnames.filter (fun s => !decide (s ∈ wb1.sheetnames))) = []
        ∧ firstDedup (wb1.sheetnames.filter (fun s => !decide (s ∈ wb2.sheetnames))) = []
    · rw [if_pos hc]
      simp
    · rw [if_neg hc]
      simp only []
      constructor
      · intro hfalse
        exact absurd hfalse (by decide)
      · intro herr
        exfalso
        rw [List.append_eq_nil] at herr
        apply hc
        constructor
        · by_contra hm1
          rw [if_neg hm1] at herr
          simp at herr
        · by_contra hm2
          rw [if_neg hm2] at herr
          simp at herr
  · intro s1 s2 h
    simp only [check_sheet_structure]
    exact mkResult_ok_iff _ _ _
  · intro s
    simp only [check_formula_errors]
    exact mkResult_ok_iff _ _ _
  · intro s1 s2 hdim
    simp only [compare_formulas]
    rw [if_neg (not_not_intro hdim)]
    exact mkResult_ok_iff _ _ _
  · intro s1 s2 hdim
    simp only [compare_formulas]
    rw [if_pos hdim]
    exact ⟨rfl, rfl⟩

/-- Two sheets whose nominal dimensions differ (1x2 versus 1x3). -/
def dimSheetC : Worksheet :=
  { title := "C", maxRow := 1, maxColumn := 2, cells := fun _ _ => {} }

/-- See `dimSheetC`. -/
def dimSheetD : Worksheet :=
  { title := "D", maxRow := 1, maxColumn := 3, cells := fun _ _ => {} }

/-- Witness for the amended C1 theorem: the dimension-mismatch branch at a
concrete sheet pair. -/
theorem comparison_result_invariant_amended_witness :
    (compare_formulas dimSheetC dimSheetD).status = "Error"
  ∧ (compare_formulas dimSheetC dimSheetD).errors = [] :=
  comparison_result_invariant_amended.2.2.2.2 dimSheetC dimSheetD (by decide)

theorem firstDedup_eq_nil_iff {α : Type} [DecidableEq α] (l : List α) :
    firstDedup l = [] ↔ l = [] := by
  cases l with
  | nil => simp [firstDedup_nil]
  | cons a as =>
    rw [firstDedup_cons]
    simp

theorem dictOf_eq_nil_iff (ps : List (String × String)) : dictOf ps = [] ↔ ps = [] := by
  unfold dictOf
  rw [List.map_eq_nil_iff, firstDedup_eq_nil_iff, List.map_eq_nil_iff]

/-- Claim C6 counterexample: a cell tagged `data_type == 'e'` whose value is
not a string is NOT counted by the scanner, so "error iff kind tag is
evaluated-error" fails. -/
def badErrorSheet : Worksheet :=
  { title := "Bad", maxRow := 1, maxColumn := 1,
    cells := fun _ _ => { value := some (.int 3), dataTypeE := true } }

/-- Claim C6 counterexample: `badErrorSheet` holds an evaluated-error cell at
A1, yet the scanner reports `Ok` with no errors, because the cell value is
not a string. -/
theorem formula_error_scanner_counterexample :
    (badErrorSheet.cells 1 1).dataTypeE = true
  ∧ (check_formula_errors badErrorSheet).status = "Ok"
  ∧ (check_formula_errors badErrorSheet).errors = [] := by
  refine ⟨rfl, rfl, rfl⟩

/-- Claim C6 (amended): a cell is counted iff its kind tag is evaluated-error
AND its value is text; the `errors` dict maps each error text, in first-seen
order, to the cell references of the cells holding that text, and the status
is `Error` iff such a cell exists. -/
theorem formula_error_scanner_amended (sheet : Worksheet) :
    (check_formula_errors sheet).errors
      = dictOf (((allPositions sheet.maxRow sheet.maxColumn).filter
          (fun p => (sheet.cells p.1 p.2).dataTypeE
            && isStrVal (sheet.cells p.1 p.2).value)).map
          (fun p => (strValOf (sheet.cells p.1 p.2).value, cellName p.2 p.1)))
  ∧ ((check_formula_errors sheet).status = "Error"
      ↔ ∃ p ∈ allPositions sheet.maxRow sheet.maxColumn,
          (sheet.cells p.1 p.2).dataTypeE = true
            ∧ isStrVal (sheet.cells p.1 p.2).value = true)
  ∧ ((check_formula_errors sheet).status = "Ok"
      ↔ ¬ ∃ p ∈ allPositions sheet.maxRow sheet.maxColumn,
          (sheet.cells p.1 p.2).dataTypeE = true
            ∧ isStrVal (sheet.cells p.1 p.2).value = true) := by
  have hstep :
      (fun (d : List (String × List String)) (p : Nat × Nat) =>
        if (sheet.cells p.1 p.2).dataTypeE then
          if isStrVal (sheet.cells p.1 p.2).value then
            addToDict d (strValOf (sheet.cells p.1 p.2).value) (cellName p.2 p.1)
          else d
        else d)
      = (fun d p =>
          if ((sheet.cells p.1 p.2).dataTypeE && isStrVal (sheet.cells p.1 p.2).value) then
            addToDict d (strValOf (sheet.cells p.1 p.2).value) (cellName p.2 p.1)
          else d) := by
    funext d p
    by_cases h1 : (sheet.cells p.1 p.2).dataTypeE
      <;> by_cases h2 : isStrVal (sheet.cells p.1 p.2).value
      <;> simp [h1, h2]
  have hnil :
      ((allPositions sheet.maxRow sheet.maxColumn).foldl
        (fun d p =>
          if (sheet.cells p.1 p.2).dataTypeE then
            if isStrVal (sheet.cells p.1 p.2).value then
              addToDict d (strValOf (sheet.cells p.1 p.2).value) (cellName p.2 p.1)
            else d
          else d) [])
      = dictOf (((allPositions sheet.maxRow sheet.maxColumn).filter
          (fun p => (sheet.cells p.1 p.2).dataTypeE
            && isStrVal (sheet.cells p.1 p.2).value)).map
          (fun p => (strValOf (sheet.cells p.1 p.2).value, cellName p.2 p.1))) := by
    rw [hstep]
    rw [foldl_guard (fun p => (sheet.cells p.1 p.2).dataTypeE
        && isStrVal (sheet.cells p.1 p.2).value)
      (fun p => strValOf (sheet.cells p.1 p.2).value)
      (fun p => cellName p.2 p.1)
      (allPositions sheet.maxRow sheet.maxColumn) []]
    rw [foldl_addToDict]
  have hempty :
      (((allPositions sheet.maxRow sheet.maxColumn).filter
          (fun p => (sheet.cells p.1 p.2).dataTypeE
            && isStrVal (sheet.cells p.1 p.2).value)).map
          (fun p => (strValOf (sheet.cells p.1 p.2).value, cellName p.2 p.1))) = []
      ↔ ¬ ∃ p ∈ allPositions sheet.maxRow sheet.maxColumn,
          (sheet.cells p.1 p.2).dataTypeE = true
            ∧ isStrVal (sheet.cells p.1 p.2).value = true := by
    rw [List.map_eq_nil_iff, List.filter_eq_nil_iff]
    constructor
    · intro h hcon
      obtain ⟨p, hp, h1, h2⟩ := hcon
      exact absurd (by rw [h1, h2]; rfl) (h p hp)
    · intro h p hp
      rw [Bool.and_eq_true]
      intro hcon
      exact h ⟨p, hp, hcon.1, hcon.2⟩
  refine ⟨?_, ?_, ?_⟩
  · simp only [check_formula_errors]
    rw [mkResult_errors, hnil]
  · simp only [check_formula_errors]
    rw [mkResult_error_iff, hnil, dictOf_eq_nil_iff, hempty, not_not]
  · simp only [check_formula_errors]
    rw [mkResult_ok_iff, mkResult_errors, hnil, dictOf_eq_nil_iff, hempty]

theorem allPositions_eq_product (rows cols : Nat) :
    allPositions rows cols = (List.range' 1 rows) ×ˢ (List.range' 1 cols) := rfl

theorem allPositions_nodup (rows cols : Nat) : (allPositions rows cols).Nodup := by
  rw [allPositions_eq_product]
  exact List.Nodup.product (List.nodup_range' 1 rows) (List.nodup_range' 1 cols)

theorem mem_allPositions (rows cols : Nat) (r c : Nat) :
    (r, c) ∈ allPositions rows cols ↔ (1 ≤ r ∧ r ≤ rows) ∧ (1 ≤ c ∧ c ≤ cols) := by
  rw [allPositions_eq_product, List.mem_product, List.mem_range'_1, List.mem_range'_1]
  omega

theorem cellPair_injective :
    Function.Injective (fun p : Nat × Nat => cellName p.2 p.1) := by
  intro a b h
  have := cellName_injective h
  exact Prod.ext this.2 this.1

/-- Claim C7: within equal nominal dimensions, the Formula Comparator records
exactly one entry per position where both cells hold text beginning with `=`
and the texts differ, keyed by the cell reference; a position where only one
side is a formula is never reported; status is `Error` iff a differing cell
exists. -/
theorem formula_comparator_characterization (sheet1 sheet2 : Worksheet)
    (hdim : sheet1.maxRow = sheet2.maxRow ∧ sheet1.maxColumn = sheet2.maxColumn) :
    (compare_formulas sheet1 sheet2).errors
      = ((allPositions sheet1.maxRow sheet1.maxColumn).filter
          (formulaDiffCond sheet1 sheet2)).map
          (fun p => (cellName p.2 p.1, [formulaDiffMsg sheet1 sheet2 p.1 p.2]))
  ∧ ((compare_formulas sheet1 sheet2).status = "Error"
      ↔ ∃ p ∈ allPositions sheet1.maxRow sheet1.maxColumn,
          formulaDiffCond sheet1 sheet2 p = true)
  ∧ (∀ r c, (r, c) ∈ allPositions sheet1.maxRow sheet1.maxColumn →
      ((∃ l, (cellName c r, l) ∈ (compare_formulas sheet1 sheet2).errors)
        ↔ (isFormulaVal (sheet1.cells r c).value = true
            ∧ isFormulaVal (sheet2.cells r c).value = true
            ∧ ¬ ((sheet1.cells r c).value = (sheet2.cells r c).value)))) := by
  have herrors :
      (compare_formulas sheet1 sheet2).errors
        = ((allPositions sheet1.maxRow sheet1.maxColumn).filter
            (formulaDiffCond sheet1 sheet2)).map
            (fun p => (cellName p.2 p.1, [formulaDiffMsg sheet1 sheet2 p.1 p.2])) := by
    simp only [compare_formulas]
    rw [if_neg (not_not_intro hdim)]
    rw [mkResult_errors]
    rw [foldl_guard (formulaDiffCond sheet1 sheet2)
      (fun p => cellName p.2 p.1)
      (fun p => formulaDiffMsg sheet1 sheet2 p.1 p.2)
      (allPositions sheet1.maxRow sheet1.maxColumn) []]
    rw [foldl_addToDict_nodup]
    · rw [List.map_map]
      rfl
    · rw [List.map_map]
      apply List.Nodup.map
      · intro a b h
        have := cellName_injective h
        exact Prod.ext this.2 this.1
      · exact List.Nodup.filter _ (allPositions_nodup _ _)
  have hstatus :
      (compare_formulas sheet1 sheet2).status = "Error"
        ↔ ¬ ((compare_formulas sheet1 sheet2).errors = []) := by
    simp only [compare_formulas]
    rw [if_neg (not_not_intro hdim)]
    rw [mkResult_error_iff, mkResult_errors]
  refine ⟨herrors, ?_, ?_⟩
  · rw [hstatus, herrors]
    rw [List.map_eq_nil_iff, List.filter_eq_nil_iff]
    constructor
    · intro h
      by_contra hno
      apply h
      intro p hp hcond
      exact hno ⟨p, hp, hcond⟩
    · rintro ⟨p, hp, hcond⟩ hall
      exact hall p hp hcond
  · intro r c hrc
    rw [herrors]
    constructor
    · rintro ⟨l, hl⟩
      rw [List.mem_map] at hl
      obtain ⟨p, hpmem, heq⟩ := hl
      have hname : cellName p.2 p.1 = cellName c r := congrArg Prod.fst heq
      have hp : p = (r, c) := by
        have h2 := cellName_injective hname
        exact Prod.ext h2.2 h2.1
      rw [hp] at hpmem
      have hcond := List.of_mem_filter hpmem
      unfold formulaDiffCond at hcond
      simp only [Bool.and_eq_true, Bool.not_eq_true', decide_eq_false_iff_not] at hcond
      exact ⟨hcond.1.1, hcond.1.2, hcond.2⟩
    · rintro ⟨h1, h2, h3⟩
      refine ⟨[formulaDiffMsg sheet1 sheet2 r c], ?_⟩
      rw [List.mem_map]
      refine ⟨(r, c), ?_, rfl⟩
      rw [List.mem_filter]
      refine ⟨hrc, ?_⟩
      unfold formulaDiffCond
      simp only [Bool.and_eq_true, Bool.not_eq_true', decide_eq_false_iff_not]
      exact ⟨⟨h1, h2⟩, h3⟩

/-- A 1x1 sheet holding the formula text `=A1+1`. -/
def fSheet1 : Worksheet :=
  { title := "S1", maxRow := 1, maxColumn := 1,
    cells := fun _ _ => { value := some (.str "=A1+1") } }

/-- A 1x1 sheet holding the formula text `=A1+2`. -/
def fSheet2 : Worksheet :=
  { title := "S2", maxRow := 1, maxColumn := 1,
    cells := fun _ _ => { value := some (.str "=A1+2") } }

/-- Witness for C7: two 1x1 sheets with differing formulas produce exactly one
entry keyed by the A1 cell reference, and status `Error`. -/
theorem formula_comparator_characterization_witness :
    (compare_formulas fSheet1 fSheet2).errors
      = [(cellName 1 1, [formulaDiffMsg fSheet1 fSheet2 1 1])]
  ∧ (compare_formulas fSheet1 fSheet2).status = "Error" := by
  have h := formula_comparator_characterization fSheet1 fSheet2 ⟨rfl, rfl⟩
  constructor
  · rw [h.1]
    rfl
  · exact (h.2.1).mpr ⟨(1, 1), by decide, by decide⟩

/-- Lookup of a category in the insertion-ordered errors dict. -/
def errLookup : List (String × List String) → String → Option (List String)
  | [], _ => none
  | (k1, v) :: t, key => if k1 = key then some v else errLookup t key

theorem errLookup_three (A B C : List String) (a b c : String) (key : String)
    (ha : ¬ a = key) (hb : ¬ b = key) :
    errLookup ((if A = [] then [] else [(a, A)]) ++ (if B = [] then [] else [(b, B)])
        ++ (if C = [] then [] else [(c, C)])) key
      = if C = [] then none else if c = key then some C else none := by
  by_cases hA : A = [] <;> by_cases hB : B = [] <;> by_cases hC : C = [] <;>
    simp [hA, hB, hC, errLookup, ha, hb]

theorem zip_self_eq {α : Type} (l : List α) : ∀ q ∈ l.zip l, q.1 = q.2 := by
  induction l with
  | nil =>
    intro q hq
    cases hq
  | cons a t ih =>
    intro q hq
    rw [List.zip_cons_cons] at hq
    rcases List.mem_cons.mp hq with he | hm
    · rw [he]
    · exact ih q hm

theorem snd_mem_of_mem_enumFrom {α : Type} :
    ∀ (l : List α) (n : Nat) (q : Nat × α), q ∈ l.enumFrom n → q.2 ∈ l := by
  intro l
  induction l with
  | nil =>
    intro n q hq
    cases hq
  | cons a t ih =>
    intro n q hq
    rw [List.enumFrom_cons] at hq
    rcases List.mem_cons.mp hq with he | hm
    · rw [he]
      exact List.mem_cons_self _ _
    · exact List.mem_cons_of_mem _ (ih (n + 1) q hm)

theorem headerMismatchList_self (l : List (Option PyVal)) : headerMismatchList l l = [] := by
  unfold headerMismatchList
  rw [List.map_eq_nil_iff]
  apply List.filter_eq_nil_iff.mpr
  intro q hq
  have hmem : q.2 ∈ l.zip l := snd_mem_of_mem_enumFrom _ 0 q hq
  have := zip_self_eq l q.2 hmem
  simp [this]

theorem headerMismatchList_nil_of_zip_eq (l1 l2 : List (Option PyVal))
    (h : ∀ q ∈ l1.zip l2, q.1 = q.2) : headerMismatchList l1 l2 = [] := by
  unfold headerMismatchList
  rw [List.map_eq_nil_iff]
  apply List.filter_eq_nil_iff.mpr
  intro q hq
  have hmem : q.2 ∈ l1.zip l2 := snd_mem_of_mem_enumFrom _ 0 q hq
  have := h q.2 hmem
  simp [this]

theorem headerOf_length (sheet : Worksheet) (row cols : Nat) :
    (headerOf sheet row cols).length = cols := by
  unfold headerOf
  rw [List.length_map, List.length_range']

/-- Claim C10: with a positive header row, each sheet's header is read over
that sheet's own used-column range; the `"Header Mismatch"` entry is exactly
the zip-based mismatch list, whose length cannot exceed the shorter header;
and when the used-column counts differ but the zipped prefix agrees, the
sequences are unequal yet no `"Header Mismatch"` entry is produced. -/
theorem structure_comparator_header_zip (sheet1 sheet2 : Worksheet)
    (header_row_number : Nat) (hpos : 0 < header_row_number) :
    ((headerOf sheet1 header_row_number (get_used_area sheet1).last_used_column).length
        = (get_used_area sheet1).last_used_column
      ∧ (headerOf sheet2 header_row_number (get_used_area sheet2).last_used_column).length
        = (get_used_area sheet2).last_used_column)
  ∧ (errLookup (check_sheet_structure sheet1 sheet2 header_row_number).errors
        ("Header Mismatch")
      = (if headerMismatchList
            (headerOf sheet1 header_row_number (get_used_area sheet1).last_used_column)
            (headerOf sheet2 header_row_number (get_used_area sheet2).last_used_column) = []
         then none
         else some (headerMismatchList
            (headerOf sheet1 header_row_number (get_used_area sheet1).last_used_column)
            (headerOf sheet2 header_row_number (get_used_area sheet2).last_used_column))))
  ∧ ((headerMismatchList
        (headerOf sheet1 header_row_number (get_used_area sheet1).last_used_column)
        (headerOf sheet2 header_row_number (get_used_area sheet2).last_used_column)).length
      ≤ min (get_used_area sheet1).last_used_column (get_used_area sheet2).last_used_column)
  ∧ ((get_used_area sheet1).last_used_column ≠ (get_used_area sheet2).last_used_column →
      (∀ q ∈ (headerOf sheet1 header_row_number (get_used_area sheet1).last_used_column).zip
          (headerOf sheet2 header_row_number (get_used_area sheet2).last_used_column),
        q.1 = q.2) →
      (headerOf sheet1 header_row_number (get_used_area sheet1).last_used_column
          ≠ headerOf sheet2 header_row_number (get_used_area sheet2).last_used_column)
      ∧ errLookup (check_sheet_structure sheet1 sheet2 header_row_number).errors
          ("Header Mismatch") = none) := by
  have hlookup : errLookup (check_sheet_structure sheet1 sheet2 header_row_number).errors
        ("Header Mismatch")
      = (if headerMismatchList
            (headerOf sheet1 header_row_number (get_used_area sheet1).last_used_column)
            (headerOf sheet2 header_row_number (get_used_area sheet2).last_used_column) = []
         then none
         else some (headerMismatchList
            (headerOf sheet1 header_row_number (get_used_area sheet1).last_used_column)
            (headerOf sheet2 header_row_number (get_used_area sheet2).last_used_column))) := by
    simp only [check_sheet_structure]
    rw [mkResult_errors, if_pos hpos, if_pos hpos]
    rw [errLookup_three _ _ _ _ _ _ _ (by decide) (by decide)]
    by_cases hH : headerOf sheet1 header_row_number (get_used_area sheet1).last_used_column
        = headerOf sheet2 header_row_number (get_used_area sheet2).last_used_column
    · rw [if_pos hH, hH, headerMismatchList_self]
      simp
    · rw [if_neg hH]
      by_cases hM : headerMismatchList
          (headerOf sheet1 header_row_number (get_used_area sheet1).last_used_column)
          (headerOf sheet2 header_row_number (get_used_area sheet2).last_used_column) = []
      · rw [if_pos hM, if_pos hM]
      · rw [if_neg hM, if_neg hM]
        simp
  refine ⟨⟨headerOf_length _ _ _, headerOf_length _ _ _⟩, hlookup, ?_, ?_⟩
  · unfold headerMismatchList
    rw [List.length_map]
    calc (((headerOf sheet1 header_row_number
            (get_used_area sheet1).last_used_column).zip
          (headerOf sheet2 header_row_number
            (get_used_area sheet2).last_used_column)).enum.filter
          (fun p => !decide (p.2.1 = p.2.2))).length
        ≤ ((headerOf sheet1 header_row_number
            (get_used_area sheet1).last_used_column).zip
          (headerOf sheet2 header_row_number
            (get_used_area sheet2).last_used_column)).enum.length :=
          List.length_filter_le _ _
      _ = ((headerOf sheet1 header_row_number
            (get_used_area sheet1).last_used_column).zip
          (headerOf sheet2 header_row_number
            (get_used_area sheet2).last_used_column)).length := List.enum_length
      _ = min (headerOf sheet1 header_row_number
            (get_used_area sheet1).last_used_column).length
          (headerOf sheet2 header_row_number
            (get_used_area sheet2).last_used_column).length := List.length_zip _ _
      _ = min (get_used_area sheet1).last_used_column
          (get_used_area sheet2).last_used_column := by
          rw [headerOf_length, headerOf_length]
  · intro hcols hzip
    have hne : headerOf sheet1 header_row_number (get_used_area sheet1).last_used_column
        ≠ headerOf sheet2 header_row_number (get_used_area sheet2).last_used_column := by
      intro heq
      apply hcols
      have := congrArg List.length heq
      rwa [headerOf_length, headerOf_length] at this
    refine ⟨hne, ?_⟩
    rw [hlookup, if_pos (headerMismatchList_nil_of_zip_eq _ _ hzip)]

/-- A fully used 2x2 sheet whose header row holds the integers 1, 2. -/
def hSheet1 : Worksheet :=
  { title := "H1", maxRow := 2, maxColumn := 2,
    cells := fun _ c => { value := some (.int (Int.ofNat c)) } }

/-- A fully used 2x3 sheet whose header row holds the integers 1, 2, 3. -/
def hSheet2 : Worksheet :=
  { title := "H2", maxRow := 2, maxColumn := 3,
    cells := fun _ c => { value := some (.int (Int.ofNat c)) } }

/-- Witness for C10: used-column counts 2 and 3 differ, the zipped header
prefix agrees, and no `"Header Mismatch"` entry is produced. -/
theorem structure_comparator_header_zip_witness :
    errLookup (check_sheet_structure hSheet1 hSheet2 1).errors ("Header Mismatch") = none := by
  have h := structure_comparator_header_zip hSheet1 hSheet2 1 (by decide)
  exact (h.2.2.2 (by decide) (by decide)).2

/-- A scanner result with one formula error, used as normalizer input. -/
def cexErrorInput : ComparisonResult :=
  { status := "Error", description := "Found errors", errors := [("#DIV/0!", ["A1"])] }

/-- A formula-error context whose `Rule_Cd` is the EMPTY string. -/
def cexEmptyRuleCtx : FormulaErrorSheetContext :=
  { Rule_Cd := some "", Sheet_Cd := some "S1", Error_Category := some "Formula Error",
    Error_Severity_Cd := some "hard" }

/-- Claim C4 counterexample: the formula-error normalizer accepts a context
containing an empty-string field and produces an event, instead of raising. -/
theorem event_normalizer_validation_counterexample :
    cexEmptyRuleCtx.Rule_Cd = some ""
  ∧ create_dataframe_formula_errors cexErrorInput cexEmptyRuleCtx
      = Except.ok [(⟨some "S1", some "", some "A1", some "Formula Error",
          some "hard", "#DIV/0!"⟩ : ValidationRow)] := by
  refine ⟨rfl, rfl⟩

/-- Claim C4 (amended): each specialization enforces its own field policy:
the formula-error normalizer fails exactly when a context field is `None`
(empty strings pass); the structure-discrepancy normalizer fails exactly when
a field is falsy (`None` or empty); the missing-sheet normalizer validates
fields only while emitting rows, so with no missing-sheet list it accepts any
context and produces no event. -/
theorem event_normalizer_validation_amended :
    (∀ (input : ComparisonResult) (ctx : FormulaErrorSheetContext),
      ((∃ msg, create_dataframe_formula_errors input ctx = Except.error msg)
        ↔ (ctx.Rule_Cd = none ∨ ctx.Sheet_Cd = none ∨ ctx.Error_Category = none
            ∨ ctx.Error_Severity_Cd = none)))
  ∧ (∀ (input : ComparisonResult) (ctx : StructureDiscrepancyContext),
      ((∃ msg, create_dataframe_structure_discrepancies input ctx = Except.error msg)
        ↔ ¬ (strTruthy ctx.Rule_Cd = true ∧ strTruthy ctx.Error_Severity_Cd = true
            ∧ strTruthy ctx.Sheet_Cd = true ∧ strTruthy ctx.Error_Category = true)))
  ∧ (∀ (input : ComparisonResult) (ctx : MissingSheetContext),
      (input.errors.lookup "Missing In Spreadsheet 2" = none →
        create_dataframe_missing_sheets input ctx = Except.ok [])) := by
  refine ⟨?_, ?_, ?_⟩
  · intro input ctx
    simp only [create_dataframe_formula_errors, validate_input_data]
    by_cases hcond : ctx.Rule_Cd = none ∨ ctx.Sheet_Cd = none ∨ ctx.Error_Category = none
        ∨ ctx.Error_Severity_Cd = none
    · rw [if_pos hcond]
      simp only [hcond, iff_true]
      exact ⟨"The context values cannot be None.", rfl⟩
    · rw [if_neg hcond]
      simp only [hcond, iff_false]
      rintro ⟨msg, hmsg⟩
      cases hmsg
  · intro input ctx
    simp only [create_dataframe_structure_discrepancies]
    cases hX : (strTruthy ctx.Rule_Cd && strTruthy ctx.Error_Severity_Cd
        && strTruthy ctx.Sheet_Cd && strTruthy ctx.Error_Category) with
    | true =>
      simp only [Bool.and_eq_true] at hX
      constructor
      · intro hcon
        obtain ⟨msg, hmsg⟩ := hcon
        rw [if_neg (by decide)] at hmsg
        cases hmsg
      · intro hcon
        exact absurd ⟨hX.1.1.1, hX.1.1.2, hX.1.2, hX.2⟩ hcon
    | false =>
      rw [if_pos (by decide)]
      constructor
      · intro _
        intro hcon
        obtain ⟨h1, h2, h3, h4⟩ := hcon
        rw [h1, h2, h3, h4] at hX
        simp at hX
      · intro _
        exact ⟨"The context contains missing values.", rfl⟩
  · intro input ctx h
    simp [create_dataframe_missing_sheets, h]
    rfl

/-- A differ result with no missing sheets. -/
def okTabsInput : ComparisonResult :=
  { status := "Ok", description := "Both spreadsheets have the same sheet names.", errors := [] }

/-- A missing-sheet context whose fields are empty or `None`. -/
def badMissingCtx : MissingSheetContext :=
  { Rule_Cd := some "", Error_Category := some "", Error_Severity_Cd := none }

/-- Witness for the amended C4 theorem: with no missing-sheet list, even a
context of empty and `None` fields is accepted and yields no events. -/
theorem event_normalizer_validation_amended_witness :
    create_dataframe_missing_sheets okTabsInput badMissingCtx = Except.ok [] :=
  event_normalizer_validation_amended.2.2 okTabsInput badMissingCtx rfl

/-- A single-sheet workbook named `Alpha`. -/
def wbX : Workbook :=
  { sheets := [{ title := "Alpha", maxRow := 1, maxColumn := 1, cells := fun _ _ => {} }] }

/-- A single-sheet workbook named `Beta` (no sheet in common with `wbX`). -/
def wbY : Workbook :=
  { sheets := [{ title := "Beta", maxRow := 1, maxColumn := 1, cells := fun _ _ => {} }] }

theorem commonSheetnames_wbXY : commonSheetnames wbX wbY = [] := by
  unfold commonSheetnames
  have hfil : wbX.sheetnames.filter (fun s => decide (s ∈ wbY.sheetnames)) = [] := by decide
  rw [hfil, firstDedup_nil]

/-- Claim C3 counterexample: with zero common sheet names,
`find_formula_differences` fails on concatenating an empty list of frames
instead of returning an empty collection. -/
theorem orchestrators_zero_common_counterexample :
    find_formula_differences wbX wbY = Except.error "No objects to concatenate" := by
  unfold find_formula_differences
  rw [commonSheetnames_wbXY]
  rfl

/-- Claim C3 (amended): with zero common sheet names,
`find_shape_differences` returns an explicit empty collection, but
`find_formula_differences` fails with the empty-concatenation error. -/
theorem orchestrators_zero_common_amended (wb1 wb2 : Workbook)
    (h : commonSheetnames wb1 wb2 = []) :
    find_shape_differences wb1 wb2 = Except.ok []
  ∧ find_formula_differences wb1 wb2 = Except.error "No objects to concatenate" := by
  constructor
  · unfold find_shape_differences
    rw [h]
    rfl
  · unfold find_formula_differences
    rw [h]
    rfl

/-- A two-sheet workbook disjoint from `wbW`. -/
def wbV : Workbook :=
  { sheets := [{ title := "One", maxRow := 1, maxColumn := 1, cells := fun _ _ => {} },
               { title := "Two", maxRow := 1, maxColumn := 1, cells := fun _ _ => {} }] }

/-- A two-sheet workbook disjoint from `wbV`. -/
def wbW : Workbook :=
  { sheets := [{ title := "Three", maxRow := 1, maxColumn := 1, cells := fun _ _ => {} },
               { title := "Four", maxRow := 1, maxColumn := 1, cells := fun _ _ => {} }] }

/-- Witness for the amended C3 theorem at a concrete disjoint workbook pair. -/
theorem orchestrators_zero_common_amended_witness :
    find_shape_differences wbV wbW = Except.ok []
  ∧ find_formula_differences wbV wbW = Except.error "No objects to concatenate" :=
  orchestrators_zero_common_amended wbV wbW (by
    unfold commonSheetnames
    have hfil : wbV.sheetnames.filter (fun s => decide (s ∈ wbW.sheetnames)) = [] := by decide
    rw [hfil, firstDedup_nil])

theorem groupByDesc_nil : groupByDesc [] = [] := by
  rw [groupByDesc]

theorem groupByDesc_cons (r : MeasureRow) (rs : List MeasureRow) :
    groupByDesc (r :: rs)
      = (r.Measure_Desc,
          r :: rs.filter (fun x => decide (x.Measure_Desc = r.Measure_Desc))) ::
        groupByDesc (rs.filter (fun x => !decide (x.Measure_Desc = r.Measure_Desc))) := by
  rw [groupByDesc]

theorem map_desc_filter_comm (s : String) (l : List MeasureRow) :
    (l.filter (fun x => !decide (x.Measure_Desc = s))).map (fun x => x.Measure_Desc)
      = (l.map (fun x => x.Measure_Desc)).filter (fun d => !decide (d = s)) := by
  induction l with
  | nil => rfl
  | cons a t iht =>
    rw [List.map_cons, List.filter_cons, List.filter_cons]
    by_cases ha : a.Measure_Desc = s
    · rw [if_neg (by simp [ha]), if_neg (by simp [ha]), iht]
    · rw [if_pos (by simp [ha]), if_pos (by simp [ha]), List.map_cons, iht]

theorem groupByDesc_eq (rows : List MeasureRow) :
    groupByDesc rows
      = (firstDedup (rows.map (fun r => r.Measure_Desc))).map
          (fun d => (d, rows.filter (fun r => decide (r.Measure_Desc = d)))) := by
  induction rows using list_length_induction with
  | step rows ih =>
    cases rows with
    | nil =>
      rw [groupByDesc_nil, List.map_nil, firstDedup_nil, List.map_nil]
    | cons r rs =>
      rw [groupByDesc_cons, List.map_cons, firstDedup_cons, List.map_cons]
      have hlen : (rs.filter (fun x => !decide (x.Measure_Desc = r.Measure_Desc))).length
          < (r :: rs).length :=
        Nat.lt_succ_of_le (List.length_filter_le _ _)
      refine congrArg₂ (fun a b => List.cons a b) ?_ ?_
      · refine congrArg (fun t => (r.Measure_Desc, t)) ?_
        rw [List.filter_cons]
        rw [if_pos (by simp)]
      · rw [ih _ hlen]
        rw [map_desc_filter_comm r.Measure_Desc rs]
        apply List.map_congr_left
        intro d hd
        have hdne : ¬ (d = r.Measure_Desc) := by
          have hmem := (mem_firstDedup _ _).mp hd
          have := List.of_mem_filter hmem
          simpa using this
        refine congrArg (fun t => (d, t)) ?_
        rw [List.filter_cons]
        rw [if_neg (by simpa using fun he => hdne he.symm)]
        rw [List.filter_filter]
        apply List.filter_congr
        intro x _
        by_cases hxd : x.Measure_Desc = d
        · have hxr : ¬ (x.Measure_Desc = r.Measure_Desc) := by
            rw [hxd]
            exact hdne
          simp [hxd, hxr, hdne]
        · simp [hxd]

/-- Claim C2 (spec-modelled): for every input table with the required columns,
the checker returns exactly one event per `Measure_Desc` group in which more
than one distinct `Measure_Cd` occurs (descriptions in first-seen order), that
event listing the group's `(Measure_Cd, Sheet_Cd)` pairs joined by `" -- "` in
first-seen order with the batch metadata forwarded; qualifying groups are
characterized by direct filtering of the rows, so single-code groups and empty
input yield no event. -/
theorem duplicate_description_checker_characterization (df : MeasureDF)
    (metadata : BatchMetadata)
    (hcols : "Measure_Cd" ∈ df.columns ∧ "Measure_Desc" ∈ df.columns
      ∧ "Sheet_Cd" ∈ df.columns) :
    create_same_desc_diff_boncode_validation_event df metadata
      = Except.ok
          (((firstDedup (df.rows.map (fun r => r.Measure_Desc))).filter
              (fun d => decide (1 < (firstDedup ((df.rows.filter
                  (fun r => decide (r.Measure_Desc = d))).map
                  (fun r => r.Measure_Cd))).length))).map
            (fun d => mkBoncodeEvent metadata
              (df.rows.filter (fun r => decide (r.Measure_Desc = d))))) := by
  unfold create_same_desc_diff_boncode_validation_event
  rw [if_neg (not_not_intro hcols)]
  rw [groupByDesc_eq]
  rw [List.filter_map]
  rw [List.map_map]
  rfl

/-- The duplicate-description test fixture from the repository test suite. -/
def testDF : MeasureDF :=
  { columns := ["Measure_Cd", "Measure_Desc", "Sheet_Cd"]
    rows := [⟨"A1", "desc1", "sheet1"⟩, ⟨"A2", "desc1", "sheet2"⟩,
      ⟨"B1", "desc2", "sheet3"⟩] }

/-- The batch metadata from the repository test suite. -/
def testMetadata : BatchMetadata := ⟨"batch1", "202301", "proc1", "v1", "org1"⟩

/-- Witness for C2 at the test fixture: exactly one event, for `desc1`, whose
description is `A1 -- sheet1 -- A2 -- sheet2`; no event for `desc2`. -/
theorem duplicate_description_checker_witness :
    create_same_desc_diff_boncode_validation_event testDF testMetadata
      = Except.ok [⟨"batch1", "202301", "proc1", "v1", "org1",
          "A1 -- sheet1 -- A2 -- sheet2"⟩] := by
  rw [duplicate_description_checker_characterization testDF testMetadata
    ⟨by decide, by decide, by decide⟩]
  simp [testDF, testMetadata, firstDedup_cons, firstDedup_nil, mkBoncodeEvent, pairText]
  rfl

end Panacea
